import Mathlib

/-!
Shallow embedding of the KPI backend (api.kpiv2.com) scoring, CSV-migration
and statistics code, with theorems checking the natural-language
specification against it.

Numbers are modelled as rationals (`ℚ`); JS runtime values that may be a
number or a string are modelled by `KpiValue`.  Fallible code returns
`Except String`/`Option`.  Each section names the source file and symbol it
embeds.
-/

namespace Kpi

/-- JS runtime value of a KPI entry: `number | string`. -/
inductive KpiValue where
  | num (q : ℚ)
  | str (s : String)
deriving DecidableEq, Repr

/-- JS cast `value as number` at call sites that are only reached with a
numeric value (validation runs first); the string case is never exercised by
the theorems below. -/
def KpiValue.asNumber : KpiValue → ℚ
  | .num q => q
  | .str _ => 0

/-- One untyped scoring rule from a template item
(`kpi_entry.model.ts`): `rule.value` may be a number (`nvalue`) or a string
(`svalue`), and `rule.min`/`rule.max` (`rmin`/`rmax`) may be absent. -/
structure ScoringRule where
  nvalue : Option ℚ
  svalue : Option String
  rmin : Option ℚ
  rmax : Option ℚ
  score : ℚ
deriving DecidableEq, Repr

/-- A template item (`KpiTemplate.template[i]`). -/
structure TemplateItem where
  name : String
  maxMarks : ℚ
  kpiType : String
  scoringRules : List ScoringRule
deriving DecidableEq, Repr

/-- A KPI template document (fields used by the embedded code). -/
structure KpiTemplate where
  id : String
  name : String
  departmentSlug : String
  role : String
  template : List TemplateItem
deriving DecidableEq, Repr

/-- A raw submitted value `{ name, value }`. -/
structure NameValue where
  name : String
  value : KpiValue
deriving DecidableEq, Repr

/-- A validated value with its computed score `{ name, value, score }`. -/
structure ScoredValue where
  name : String
  value : KpiValue
  score : ℚ
deriving DecidableEq, Repr

/-- Stable insertion of `x` into a descending-sorted list: `x` is placed
before the first element with a strictly smaller key, hence after all
earlier elements with an equal key (stability, as JS `Array.sort`). -/
def insertByDesc {α : Type} (key : α → ℚ) (x : α) : List α → List α
  | [] => [x]
  | y :: ys => if key y < key x then x :: y :: ys else y :: insertByDesc key x ys

/-- Stable descending sort by `key`, modelling JS
`arr.sort((a, b) => key(b) - key(a))` (JS sort is stable). -/
def sortByDesc {α : Type} (key : α → ℚ) (l : List α) : List α :=
  l.foldl (fun acc x => insertByDesc key x acc) []

/-- Sort key used by `calculateScore` for percentage rules:
`sort((a, b) => b.value - a.value)`.  A missing `value` is unreached in the
rule sets the theorems quantify over. -/
def ruleSortValue (r : ScoringRule) : ℚ :=
  r.nvalue.getD 0

/-- Guard `inputValue >= rule.value` of the percentage loop; a missing or
non-numeric `rule.value` compares false (NaN semantics). -/
def percRuleHits (x : ℚ) (r : ScoringRule) : Bool :=
  match r.nvalue with
  | some v => decide (v ≤ x)
  | none => false

/-- The `for (const rule of sortedRules)` loop of the percentage branch of
`KpiEntryValidation.calculateScore` (kpi_entry.model.ts:220-233). -/
def percentageScan (x : ℚ) : List ScoringRule → ℚ
  | [] => 0
  | rule :: rest => if percRuleHits x rule then rule.score else percentageScan x rest

/-- `KpiEntryValidation.matchesRule` (kpi_entry.model.ts:253-315). -/
def matchesRule (rule : ScoringRule) (value : KpiValue) (kpiType : String) : Bool :=
  if kpiType == "binary" || kpiType == "qualitative" then
    match value with
    | .str s => rule.svalue == some s
    | .num q => rule.nvalue == some q
  else
    match rule.rmin, rule.rmax with
    | some lo, some hi => decide (lo ≤ value.asNumber) && decide (value.asNumber ≤ hi)
    | _, _ =>
      if rule.nvalue.isSome || rule.svalue.isSome then
        if kpiType == "percentage" then
          match rule.nvalue with
          | some rv => decide (rv ≤ value.asNumber)
          | none => false
        else
          match value with
          | .num q => rule.nvalue == some q
          | .str s => rule.svalue == some s
      else false

/-- The `for (const rule of scoringRules)` fallback loop of
`calculateScore` (kpi_entry.model.ts:237-247). -/
def genericScan (rules : List ScoringRule) (value : KpiValue) (kpiType : String) : ℚ :=
  match rules with
  | [] => 0
  | rule :: rest =>
    if matchesRule rule value kpiType then rule.score else genericScan rest value kpiType

/-- `KpiEntryValidation.calculateScore` (kpi_entry.model.ts:196-248). -/
def calculateScore (templateItem : TemplateItem) (value : KpiValue) : ℚ :=
  if templateItem.kpiType == "score" then
    min value.asNumber templateItem.maxMarks
  else if templateItem.kpiType == "percentage" then
    percentageScan value.asNumber (sortByDesc ruleSortValue templateItem.scoringRules)
  else
    genericScan templateItem.scoringRules value templateItem.kpiType

/-- `KpiEntryValidation.validateValueByType` (kpi_entry.model.ts:134-191).
Error messages are abbreviated. -/
def validateValueByType (templateItem : TemplateItem) (value : KpiValue) : Except String Unit :=
  if templateItem.kpiType == "quantitative" then
    match value with
    | .num q => if q < 0 then .error "value cannot be negative" else .ok ()
    | .str _ => .error "expects a numeric value"
  else if templateItem.kpiType == "percentage" then
    match value with
    | .num q =>
      if q < 0 ∨ q > 100 then .error "percentage must be between 0 and 100" else .ok ()
    | .str _ => .error "expects a numeric value"
  else if templateItem.kpiType == "binary" then
    match value with
    | .str _ => .ok ()
    | .num _ => .error "expects a string value"
  else if templateItem.kpiType == "qualitative" then
    match value with
    | .str _ => .ok ()
    | .num _ => .error "expects a string value"
  else if templateItem.kpiType == "score" then
    match value with
    | .num q =>
      if q < 0 ∨ q > templateItem.maxMarks then .error "score out of range" else .ok ()
    | .str _ => .error "expects a numeric value"
  else .error "Unknown KPI type"

/-- `KpiEntryValidation.validateAndCalculateScores` (kpi_entry.model.ts:95-129):
per value, look up the template item by name (error if absent), validate by
type, compute the score; the first thrown error aborts the whole call. -/
def validateAndCalculateScores (template : KpiTemplate) (values : List NameValue) :
    Except String (List ScoredValue) :=
  match values with
  | [] => .ok []
  | v :: rest =>
    match template.template.find? (fun item => item.name == v.name) with
    | none => .error "KPI item not found in template"
    | some templateItem =>
      match validateValueByType templateItem v.value with
      | .error e => .error e
      | .ok _ =>
        match validateAndCalculateScores template rest with
        | .error e => .error e
        | .ok tail =>
          .ok ({ name := v.name, value := v.value,
                 score := calculateScore templateItem v.value } :: tail)

/-- Spec-side description of percentage scoring (spec §4.1): sort the rules
descending by `value` and return the score of the first rule whose `value`
is at most the input, else 0. -/
def specPercentageScore (rules : List ScoringRule) (input : ℚ) : ℚ :=
  match (sortByDesc ruleSortValue rules).find? (percRuleHits input) with
  | some r => r.score
  | none => 0

/-- The rule set of the §8 percentage example. -/
def c1Rules : List ScoringRule :=
  [⟨some 90, none, none, none, 10⟩, ⟨some 70, none, none, none, 7⟩,
   ⟨some 50, none, none, none, 5⟩]

/-- Percentage-type item holding the §8 example rules. -/
def c1Item : TemplateItem :=
  ⟨"perf", 10, "percentage", c1Rules⟩

/-! ## Header normalizer (kpi_entry.migration.ts) -/

/-- ASCII whitespace (the only whitespace the CSVs involved use). -/
def isJsSpace (c : Char) : Bool := c == ' ' || c == '\t' || c == '\n' || c == '\r'

/-- JS `s.trim()`: strip leading and trailing whitespace. -/
def jsTrim (s : String) : String :=
  ⟨((s.toList.dropWhile isJsSpace).reverse.dropWhile isJsSpace).reverse⟩

/-- JS `s.toLowerCase()`; ASCII letters are lowered, Devanagari text is
unchanged (as in JS). -/
def jsLower (s : String) : String := ⟨s.toList.map Char.toLower⟩

/-- Split a character list at a separator; a trailing separator yields a
final empty group (as JS `split`). -/
def splitChars (sep : Char) : List Char → List (List Char)
  | [] => [[]]
  | c :: rest =>
    let r := splitChars sep rest
    if c == sep then [] :: r
    else
      match r with
      | [] => [[c]]
      | g :: gs => (c :: g) :: gs

/-- JS `s.split(sep)` for a one-character separator. -/
def jsSplit (s : String) (sep : Char) : List String :=
  (splitChars sep s.toList).map String.mk

/-- Does `l` start with `pre`? -/
def listStartsWith {α : Type} [BEq α] : List α → List α → Bool
  | _, [] => true
  | [], _ :: _ => false
  | x :: xs, y :: ys => x == y && listStartsWith xs ys

/-- Does `needle` occur contiguously inside `haystack`? -/
def listHasInfix {α : Type} [BEq α] (haystack needle : List α) : Bool :=
  match haystack with
  | [] => needle.isEmpty
  | _ :: rest => listStartsWith haystack needle || listHasInfix rest needle

/-- JS `a.includes(b)`: `b` occurs as a contiguous substring of `a`. -/
def jsIncludes (a b : String) : Bool := listHasInfix a.toList b.toList

/-- Score of one variation against the normalized header
(`normalizeHeader`, kpi_entry.migration.ts:273-289): exact match 100,
containment either way 50, else 0. -/
def variationScore (normalizedHeader variation : String) : ℕ :=
  let variationLower := jsLower variation
  if normalizedHeader == variationLower then 100
  else if jsIncludes normalizedHeader variationLower ||
          jsIncludes variationLower normalizedHeader then 50
  else 0

/-- Running best match of `normalizeHeader`:
`(standardHeader, variation, score)` or nothing yet. -/
def NhBest : Type := Option (String × String × ℕ)

/-- Score held by the running best match (0 when there is none yet). -/
def nhScore (st : NhBest) : ℕ :=
  match st with
  | none => 0
  | some (_, _, s) => s

/-- The update condition
`score > 0 && (!bestMatch || score > bestMatch.score)`. -/
def nhBetter (st : NhBest) (score : ℕ) : Bool :=
  match st with
  | none => decide (score > 0)
  | some (_, _, bs) => decide (score > 0) && decide (score > bs)

/-- Inner loop of `normalizeHeader` over one entry's variations. -/
def nhStep (nh : String) (st : NhBest) (entry : String × List String) : NhBest :=
  entry.2.foldl
    (fun acc variation =>
      if nhBetter acc (variationScore nh variation) then
        some (entry.1, variation, variationScore nh variation)
      else acc)
    st

/-- `KpiMigrationService.normalizeHeader` (kpi_entry.migration.ts:260-305). -/
def normalizeHeader (header : String) (normalizations : List (String × List String)) :
    Option String :=
  let nh := jsLower (jsTrim header)
  match normalizations.foldl (nhStep nh) none with
  | some (standardHeader, _, _) => some standardHeader
  | none => none

/-- Best score any variation of one canonical key reaches (spec side). -/
def keyBestScore (nh : String) (variations : List String) : ℕ :=
  (variations.map (variationScore nh)).foldr max 0

/-- Best score over the whole table (spec side). -/
def tableBestScore (nh : String) (tbl : List (String × List String)) : ℕ :=
  (tbl.map (fun p => keyBestScore nh p.2)).foldr max 0

/-- Header normalization as the spec words it (§4.2): best score wins, ties
broken by the first-encountered canonical key in table order, no match
exactly when every variant scores 0. -/
def specNormalizeHeader (header : String) (tbl : List (String × List String)) :
    Option String :=
  let nh := jsLower (jsTrim header)
  let best := tableBestScore nh tbl
  if best = 0 then none
  else (tbl.find? (fun p => keyBestScore nh p.2 == best)).map (fun p => p.1)

/-! ## Normalization tables and parser configurations
(kpi_entry.migration.ts:53-255, transcribed verbatim; JS object key order
is insertion order, kept here as list order). -/

/-- `KpiMigrationService.headerNormalizations`. -/
def headerNormalizations : List (String × List String) :=
  [("पीठासीन अधिकारी",
    ["पीठासीन अधिकारी का नाम", "पीठासीन अधिकारी", "अधिकारी", "officer", "name",
     "नाम", "अधिकारी का नाम", "पदाधिकारी"]),
   ("officerName",
    ["पीठासीन अधिकारी", "पीठासीन अधिकारी का नाम", "अधिकारी", "officer", "name",
     "नाम", "अधिकारी का नाम", "पदाधिकारी"]),
   ("व्यपवर्तन",
    ["व्यपवर्तन", "व्यपवर्तन (अ-2)", "व्यपवर्तन अ-2", "disposal", "case disposal"]),
   ("अभिलेख दुरुस्ती/त्रुटियुधार",
    ["अभिलेख दुरुस्ती/त्रुटियुधार", "त्रुटि सुधार", "त्रुटि सुधार (अ-6-अ)",
     "त्रुटि सुधार अ-6-अ", "error correction", "record correction",
     "अभिलेख दुरुस्ती"]),
   ("अपील निराकरण", ["अपील निराकरण", "appeal disposal", "appeal resolution"]),
   ("आँगनबाड़ी/स्कूल/पीडीएस शॉप/विकास कार्य निरीक्षण",
    ["आँगनबाड़ी/स्कूल/पीडीएस शॉप/विकास कार्य निरीक्षण",
     "आंगनबाड़ी / स्कुल / पीडीएस शॉप / स्वास्थ्य केन्द्र निरीक्षण",
     "आंगनबाड़ी/स्कूल/पीडीएस शॉप/स्वास्थ्य केन्द्र निरीक्षण",
     "आंगनबाड़ी स्कूल पीडीएस शॉप स्वास्थ्य केन्द्र निरीक्षण",
     "inspection", "field inspection"]),
   ("टीएल/जनदर्शन/जनशिकायत/पीजी",
    ["टीएल/जनदर्शन/जनशिकायत/पीजी", "टी.एल./जनदर्शन / जनशिकायत /लोक सेवा",
     "टीएल / जनदर्शन / जनशिकायत / पीजी", "TL / जनदर्शन / जनशिकायत / PG",
     "TL/जनदर्शन/जनशिकायत/PG", "public hearing", "grievance"]),
   ("खाता विभाजन (विवादित + अविवादित)",
    ["खाता विभाजन (विवादित + अविवादित)", "खाता विभाजन", "account division"]),
   ("नामांतरण (विवादित + अविवादित)",
    ["नामांतरण (विवादित + अविवादित)", "नामांतरण", "name transfer"]),
   ("सीमांकन", ["सीमांकन", "demarcation"]),
   ("विविध राजस्व मामले (बी-121)",
    ["विविध राजस्व मामले (बी-121)", "विविध राजस्व मामले",
     "miscellaneous revenue cases"]),
   ("कुल निराकरण", ["कुल निराकरण", "कूल निराकरण", "total disposal"]),
   ("जाति प्रमाणपत्र", ["जाति प्रमाणपत्र", "जाति प्रमाण पत्र", "caste certificate"]),
   ("अवैध उत्खनन/अतिक्रमण",
    ["अवैध उत्खनन/अतिक्रमण", "अवैध उत्खनन /अतिक्रमण",
     "illegal excavation/encroachment"]),
   ("आर बी सी 6 (4)", ["आर बी सी 6 (4)", "RBC 6(4)", "आर.बी.सी. 6 (4)"]),
   ("टी.एल./जनदर्शन / जनशिकायत /लोक सेवा",
    ["टी.एल./जनदर्शन / जनशिकायत /लोक सेवा", "टीएल/जनदर्शन/जनशिकायत/पीजी",
     "public hearing", "grievance"])]

/-- `KpiMigrationService.subHeaderNormalizations`. -/
def subHeaderNormalizations : List (String × List String) :=
  [("कुल दर्ज", ["कुल दर्ज", "total registered", "registered", "total", "दर्ज"]),
   ("कुल निराकृत",
    ["कुल निराकृत", "total disposed", "disposed", "निराकृत", "निपटाया"]),
   ("कुल लंबित", ["कुल लंबित", "total pending", "pending", "लंबित", "बाकी"])]

/-- One KPI mapping of a parser configuration. -/
structure KpiMapping where
  searchTerms : List String
  calculationType : String
deriving DecidableEq, Repr

/-- A department/role CSV parser configuration. -/
structure CsvParserConfig where
  departmentSlug : String
  role : String
  officerNameColumn : String
  kpiMappings : List (String × KpiMapping)
deriving DecidableEq, Repr

/-- The `revenue-department-sdm` configuration. -/
def sdmConfig : CsvParserConfig :=
  { departmentSlug := "revenue-department", role := "sdm",
    officerNameColumn := "पीठासीन अधिकारी",
    kpiMappings :=
      [("व्यपवर्तन", ⟨["व्यपवर्तन"], "percentage"⟩),
       ("अभिलेख दुरुस्ती/त्रुटियुधार", ⟨["अभिलेख दुरुस्ती/त्रुटियुधार"], "percentage"⟩),
       ("अपील निराकरण", ⟨["अपील निराकरण"], "percentage"⟩),
       ("कुल प्रकरणों का निराकरण", ⟨["कुल प्रकरणों का निराकरण"], "percentage"⟩),
       ("जाति प्रमाणपत्र", ⟨["जाति प्रमाणपत्र"], "percentage"⟩),
       ("आँगनबाड़ी/स्कूल/पीडीएस शॉप/विकास कार्य निरीक्षण",
        ⟨["आँगनबाड़ी/स्कूल/पीडीएस शॉप/विकास कार्य निरीक्षण"], "percentage"⟩),
       ("RBC 6(4)", ⟨["RBC 6(4)"], "percentage"⟩),
       ("टीएल/जनदर्शन/जनशिकायत/पीजी", ⟨["टीएल/जनदर्शन/जनशिकायत/पीजी"], "percentage"⟩)] }

/-- The `revenue-department-tehsildar` configuration. -/
def tehsildarConfig : CsvParserConfig :=
  { departmentSlug := "revenue-department", role := "tehsildar",
    officerNameColumn := "पीठासीन अधिकारी",
    kpiMappings :=
      [("खाता विभाजन (विवादित + अविवादित)",
        ⟨["खाता विभाजन (विवादित + अविवादित)", "खाता विभाजन"], "percentage"⟩),
       ("नामांतरण (विवादित + अविवादित)",
        ⟨["नामांतरण (विवादित + अविवादित)", "नामांतरण"], "percentage"⟩),
       ("सीमांकन", ⟨["सीमांकन"], "percentage"⟩),
       ("विविध राजस्व मामले (बी-121)",
        ⟨["विविध राजस्व मामले (बी-121)", "विविध राजस्व मामले"], "percentage"⟩),
       ("कुल निराकरण", ⟨["कूल निराकरण", "कुल निराकरण"], "percentage"⟩),
       ("जाति प्रमाणपत्र", ⟨["जाति प्रमाण पत्र", "जाति प्रमाणपत्र"], "percentage"⟩),
       ("अवैध उत्खनन/अतिक्रमण",
        ⟨["अवैध उत्खनन /अतिक्रमण", "अवैध उत्खनन/अतिक्रमण"], "percentage"⟩),
       ("आर बी सी 6 (4)", ⟨["आर बी सी 6 (4)", "RBC 6(4)"], "percentage"⟩),
       ("टी.एल./जनदर्शन / जनशिकायत /लोक सेवा",
        ⟨["टी.एल./जनदर्शन / जनशिकायत /लोक सेवा", "टीएल/जनदर्शन/जनशिकायत/पीजी"],
         "percentage"⟩)] }

/-- `KpiMigrationService.csvParserConfigs`, keyed `departmentSlug-role`. -/
def csvParserConfigs : List (String × CsvParserConfig) :=
  [("revenue-department-sdm", sdmConfig),
   ("revenue-department-tehsildar", tehsildarConfig)]

/-- First value bound to `k` in an association list (JS object lookup). -/
def lookupStr {α : Type} (l : List (String × α)) (k : String) : Option α :=
  (l.find? (fun p => p.1 == k)).map (fun p => p.2)

/-! ## Fuzzy matching and CSV parsing (kpi_entry.migration.ts:310-623) -/

/-- One cell of the Levenshtein matrix:
`min(left + 1, up + 1, diag + indicator)`. -/
def levCell (left up diag : ℕ) (same : Bool) : ℕ :=
  min (left + 1) (min (up + 1) (diag + (if same then 0 else 1)))

/-- Fill one matrix row past column 0: the pairs are `(str1[i-1], row[j-1][i])`,
`diag` is `row[j-1][i-1]` and `left` the cell just written. -/
def levRowGo (y : Char) : List (Char × ℕ) → ℕ → ℕ → List ℕ
  | [], _, _ => []
  | (x, up) :: rest, diag, left =>
    let cell := levCell left up diag (x == y)
    cell :: levRowGo y rest up cell

/-- Row `j` of the matrix from row `j - 1` (`matrix[j][0] = j`). -/
def levNextRow (s : List Char) (prevRow : List ℕ) (j : ℕ) (y : Char) : List ℕ :=
  j :: levRowGo y (s.zip prevRow.tail) (prevRow.headD 0) j

/-- `KpiMigrationService.levenshteinDistance` (kpi_entry.migration.ts:379-399),
the classic dynamic program over code points; the final answer is
`matrix[str2.length][str1.length]`. -/
def levenshteinDistance (str1 str2 : String) : ℕ :=
  let s := str1.toList
  let firstRow : List ℕ := List.range (s.length + 1)
  (str2.toList.foldl
      (fun (acc : List ℕ × ℕ) y => (levNextRow s acc.1 (acc.2 + 1) y, acc.2 + 1))
      (firstRow, 0)).1.getLastD 0

/-- `KpiMigrationService.calculateSimilarity` (kpi_entry.migration.ts:366-374):
`(longer.length - distance) / longer.length`, 1 on two empty strings.
String lengths are code-point counts; the headers involved have no
surrogate pairs, so this matches JS `.length`. -/
def calculateSimilarity (str1 str2 : String) : ℚ :=
  let longer := if str1.length > str2.length then str1 else str2
  let shorter := if str1.length > str2.length then str2 else str1
  if longer.length = 0 then 1
  else ((longer.length : ℚ) - levenshteinDistance longer shorter) / longer.length

/-- `HeaderMapping` (kpi_entry.migration.ts:28-32). -/
structure HeaderMapping where
  originalHeader : String
  normalizedHeader : String
  confidence : ℚ
deriving DecidableEq, Repr

/-- `KpiMigrationService.findBestHeaderMatch` (kpi_entry.migration.ts:310-361):
exact normalized equality gives confidence 1, otherwise a normalizable
header with Levenshtein similarity above 0.7 is a fuzzy candidate; the
highest confidence wins, empty headers are skipped. -/
def findBestHeaderMatch (targetHeader : String) (availableHeaders : List String)
    (normalizations : List (String × List String)) : Option HeaderMapping :=
  match normalizeHeader targetHeader normalizations with
  | none => none
  | some normalizedTarget =>
    (availableHeaders.foldl
      (fun (st : Option HeaderMapping × ℚ) header =>
        if header == "" || jsTrim header == "" then st
        else
          match normalizeHeader header normalizations with
          | some nh =>
            if nh == normalizedTarget then
              if (1 : ℚ) > st.2 then (some ⟨header, nh, 1⟩, 1) else st
            else if calculateSimilarity header targetHeader > 7 / 10 then
              if calculateSimilarity header targetHeader > st.2 then
                (some ⟨header, nh, calculateSimilarity header targetHeader⟩,
                 calculateSimilarity header targetHeader)
              else st
            else st
          | none => st)
      (none, 0)).1

/-- First search term that matches some available header
(`break` after the first match, kpi_entry.migration.ts:448-461). -/
def firstTermMatch (headers : List String) : List String → Option HeaderMapping
  | [] => none
  | term :: rest =>
    match findBestHeaderMatch term headers headerNormalizations with
    | some m => some m
    | none => firstTermMatch headers rest

/-- `KpiMigrationService.createHeaderMapping` (kpi_entry.migration.ts:404-470):
map `officerName`, then each configured KPI in order (insertion order of the
JS object is list order); `subHeaders` is accepted but unused, as in the
source. -/
def createHeaderMapping (headers subHeaders : List String)
    (departmentSlug role : String) : Except String (List (String × HeaderMapping)) :=
  match lookupStr csvParserConfigs (departmentSlug ++ "-" ++ role) with
  | none => .error "No CSV parser configuration found"
  | some config =>
    let base : List (String × HeaderMapping) :=
      match findBestHeaderMatch config.officerNameColumn headers headerNormalizations with
      | some m => [("officerName", m)]
      | none => []
    .ok (config.kpiMappings.foldl
      (fun acc kv =>
        match firstTermMatch headers kv.2.searchTerms with
        | some m => acc ++ [(kv.1, m)]
        | none => acc)
      base)

/-- Decimal value of a digit list (most significant first). -/
def digitsVal (cs : List Char) : ℕ :=
  cs.foldl (fun n c => 10 * n + (c.toNat - 48)) 0

/-- JS `parseInt(s)`: skip whitespace, optional sign, longest digit run;
`NaN` (none) when no digit follows. -/
def jsParseInt (s : String) : Option ℤ :=
  let cs := (jsTrim s).toList
  let signed : Bool × List Char :=
    match cs with
    | '-' :: rest => (true, rest)
    | '+' :: rest => (false, rest)
    | _ => (false, cs)
  let digits := signed.2.takeWhile Char.isDigit
  if digits.isEmpty then none
  else some (if signed.1 then -(digitsVal digits : ℤ) else (digitsVal digits : ℤ))

/-- JS `Number(s)` on the plain integer/decimal forms the CSVs use; `none`
for a non-numeric string (`NaN`). -/
def jsNumber (s : String) : Option ℚ :=
  let cs := (jsTrim s).toList
  let signed : Bool × List Char :=
    match cs with
    | '-' :: rest => (true, rest)
    | '+' :: rest => (false, rest)
    | _ => (false, cs)
  let intPart := signed.2.takeWhile Char.isDigit
  let rest := signed.2.drop intPart.length
  let fracPart : Option (List Char) :=
    match rest with
    | [] => some []
    | '.' :: fr => if fr.all Char.isDigit then some fr else none
    | _ => none
  match fracPart with
  | none => none
  | some fr =>
    if intPart.isEmpty && fr.isEmpty then none
    else
      let mag : ℚ := (digitsVal intPart : ℚ) + (digitsVal fr : ℚ) / ((10 : ℚ) ^ fr.length)
      some (if signed.1 then -mag else mag)

/-- JS `Math.round`: half-up toward positive infinity. -/
def jsRound (q : ℚ) : ℤ := Int.floor (q + 1 / 2)

/-- The registered/disposed computation of `extractPercentageWithMapping`
(kpi_entry.migration.ts:768-798) at a given base index: both cells must be
present and nonempty after trimming, both must `parseInt`, registered must
be positive; the ratio is capped at 100 and rounded to 2 decimals. -/
def positionalPercentage (values : List String) (baseIndex : ℕ) : Option ℚ :=
  match values.get? baseIndex, values.get? (baseIndex + 1) with
  | some r0, some d0 =>
    let registeredValue := jsTrim r0
    let disposedValue := jsTrim d0
    if registeredValue ≠ "" ∧ disposedValue ≠ "" then
      match jsParseInt registeredValue, jsParseInt disposedValue with
      | some registered, some disposed =>
        if registered > 0 then
          some ((jsRound (min ((disposed : ℚ) / (registered : ℚ) * 100) 100 * 100) : ℚ) / 100)
        else none
      | _, _ => none
    else none
  | _, _ => none

/-- `KpiMigrationService.extractPercentageWithMapping`
(kpi_entry.migration.ts:712-803): the KPI column must exist among the
headers, but the data position is computed from the KPI's ordinal in the
hard-coded `revenue-department-tehsildar` configuration
(`baseIndex = 2 + ordinal * 3`); `allKpiNames` is passed but unused, as in
the source. -/
def extractPercentageWithMapping (values headers subHeaders : List String)
    (kpiMapping : HeaderMapping) (kpiName : String) (allKpiNames : List String) :
    Option ℚ :=
  match headers.findIdx? (fun h => jsTrim h == kpiMapping.originalHeader) with
  | none => none
  | some _ =>
    match lookupStr csvParserConfigs "revenue-department-tehsildar" with
    | none => none
    | some config =>
      match (config.kpiMappings.map (fun p => p.1)).findIdx? (fun n => n == kpiName) with
      | none => none
      | some kpiIndexInSequence => positionalPercentage values (2 + kpiIndexInSequence * 3)

/-- Extraction as the claim words it: the ordinal is located among the
ACTIVE parser configuration's KPI list (modelled from the claim for
comparison with `extractPercentageWithMapping`). -/
def claimExtractPercentage (config : CsvParserConfig) (values : List String)
    (kpiName : String) : Option ℚ :=
  match (config.kpiMappings.map (fun p => p.1)).findIdx? (fun n => n == kpiName) with
  | none => none
  | some ordinal => positionalPercentage values (2 + ordinal * 3)

/-- `KpiMigrationService.extractDirectValueWithMapping`
(kpi_entry.migration.ts:844-868). -/
def extractDirectValueWithMapping (values headers subHeaders : List String)
    (kpiMapping : HeaderMapping) (kpiName : String) : Option ℚ :=
  match headers.findIdx? (fun h => jsTrim h == kpiMapping.originalHeader) with
  | none => none
  | some kpiIndex =>
    let value := jsTrim ((values.get? kpiIndex).getD "")
    if value ≠ "" then jsNumber value else none

/-- A parsed CSV record (`CsvKpiData`, kpi_entry.migration.ts:8-14). -/
structure CsvKpiData where
  officerName : String
  courtName : Option String
  kpiValues : List (String × ℚ)
deriving DecidableEq, Repr

/-- One iteration of the data loop of `parseCsvData`
(kpi_entry.migration.ts:516-615): skip short rows and rows without an
officer name; collect each configured KPI's extracted value; keep the row
only when at least one KPI value was extracted; for tehsildar rows capture
column 1 as the court name. -/
def processCsvLine (headers subHeaders : List String)
    (headerMapping : List (String × HeaderMapping)) (config : CsvParserConfig)
    (role : String) (officerNameIndex : ℕ) (line : String) : Option CsvKpiData :=
  let values := jsSplit line ','
  if values.length < 2 then none
  else
    let officerName := jsTrim ((values.get? officerNameIndex).getD "")
    if officerName == "" then none
    else
      let allKpiNames := (headerMapping.map (fun p => p.1)).filter
        (fun k => !(k == "officerName"))
      let kpiValues := config.kpiMappings.foldl
        (fun acc kv =>
          match lookupStr headerMapping kv.1 with
          | none => acc
          | some kpiMapping =>
            if kv.2.calculationType == "percentage" then
              match extractPercentageWithMapping values headers subHeaders
                  kpiMapping kv.1 allKpiNames with
              | some v => acc ++ [(kv.1, v)]
              | none => acc
            else
              match extractDirectValueWithMapping values headers subHeaders
                  kpiMapping kv.1 with
              | some v => acc ++ [(kv.1, v)]
              | none => acc)
        []
      if kpiValues.isEmpty then none
      else
        some { officerName := officerName,
               courtName :=
                 if role == "tehsildar" && values.length > 1 then
                   some (jsTrim ((values.get? 1).getD ""))
                 else none,
               kpiValues := kpiValues }

/-- `KpiMigrationService.parseCsvData` (kpi_entry.migration.ts:475-623):
line 0 is split as headers and line 1 as sub-headers (fewer than two lines
throws), the header mapping is built, and then the data loop runs
`for (let i = 1; i < lines.length; i++)` — from index 1, the sub-header
line, onward. -/
def parseCsvData (csvContent : String) (departmentSlug role : String) :
    Except String (List CsvKpiData) :=
  let lines := jsSplit (jsTrim csvContent) '\n'
  match lines with
  | [] => .error "TypeError"
  | l0 :: rest0 =>
    match rest0 with
    | [] => .error "TypeError: lines[1] is undefined"
    | l1 :: _ =>
      let headers := jsSplit l0 ','
      let subHeaders := jsSplit l1 ','
      match createHeaderMapping headers subHeaders departmentSlug role with
      | .error e => .error e
      | .ok headerMapping =>
        match lookupStr headerMapping "officerName" with
        | none => .error "Could not find officer name column"
        | some officerNameMapping =>
          match headers.findIdx? (fun h => jsTrim h == officerNameMapping.originalHeader) with
          | none => .error "Officer name column not found"
          | some officerNameIndex =>
            match lookupStr csvParserConfigs (departmentSlug ++ "-" ++ role) with
            | none => .error "No CSV parser configuration found"
            | some config =>
              .ok (rest0.filterMap
                (processCsvLine headers subHeaders headerMapping config role
                  officerNameIndex))

/-! ## Migration orchestrator (kpi_entry.migration.ts:873-1241) -/

/-- One `{label, value}` reference of a member (`metadata.kpiRef[i]`). -/
structure KpiRef where
  label : String
  value : String
deriving DecidableEq, Repr

/-- A member of the external identity service: `userId`, `user.name` and
`metadata.kpiRef` (empty when absent). -/
structure Member where
  userId : String
  name : String
  kpiRef : List KpiRef
deriving DecidableEq, Repr

/-- A stored KPI entry document (fields the migration writes and the
duplicate check reads). -/
structure KpiEntryDoc where
  month : ℕ
  year : ℕ
  templateId : String
  kpiRef : KpiRef
  values : List ScoredValue
  status : String
  totalScore : ℚ
  createdBy : String
  createdFor : String
deriving DecidableEq, Repr

/-- The external identity service as the orchestrator reaches it:
`GET /members/name/{name}` (`fetchMemberByName`), `none` for not found or a
failed request. -/
structure MigrationEnv where
  byName : String → Option Member

/-- How one CSV record ended: which of the three counters it increments. -/
inductive RecordOutcome where
  | success
  | failed
  | skipped
deriving DecidableEq, Repr

/-- `totalScore = validatedValues.reduce((sum, item) => sum + item.score, 0)`. -/
def sumScores (values : List ScoredValue) : ℚ :=
  values.foldl (fun sum item => sum + item.score) 0

/-- The duplicate check of the court branch
(kpi_entry.migration.ts:1028-1034): same member, month, year, template and
`kpiRef.value`. -/
def dupExistsCourt (store : List KpiEntryDoc) (userId : String) (month year : ℕ)
    (templateId court : String) : Bool :=
  store.any (fun e =>
    e.createdFor == userId && e.month == month && e.year == year &&
    e.templateId == templateId && e.kpiRef.value == court)

/-- The duplicate check of the plain branch (kpi_entry.migration.ts:1103-1108):
same member, month, year and template. -/
def dupExists (store : List KpiEntryDoc) (userId : String) (month year : ℕ)
    (templateId : String) : Bool :=
  store.any (fun e =>
    e.createdFor == userId && e.month == month && e.year == year &&
    e.templateId == templateId)

/-- `Object.entries(record.kpiValues).map(([name, value]) => ({name, value}))`. -/
def recordValues (record : CsvKpiData) : List NameValue :=
  record.kpiValues.map (fun kv => NameValue.mk kv.1 (.num kv.2))

/-- The court branch of the per-record loop of
`createKpiEntryFromCsvData` (kpi_entry.migration.ts:999-1088): resolve the
member BY NAME (`fetchMemberByName`), require the court in that member's
`kpiRef` (else skip), check for a duplicate, validate and score, save with
`status: 'generated'`.  A validation error is the caught per-record
exception (`failed`). -/
def migrationStepCourt (env : MigrationEnv) (template : KpiTemplate)
    (month year : ℕ) (templateId createdBy : String) (store : List KpiEntryDoc)
    (record : CsvKpiData) (court : String) : List KpiEntryDoc × RecordOutcome :=
  match env.byName record.officerName with
  | none => (store, .skipped)
  | some member =>
    match member.kpiRef.find? (fun ref => ref.label == "court" && ref.value == court) with
    | none => (store, .skipped)
    | some matchingCourtRef =>
      if dupExistsCourt store member.userId month year templateId court then
        (store, .skipped)
      else
        match validateAndCalculateScores template (recordValues record) with
        | .error _ => (store, .failed)
        | .ok validatedValues =>
          (store ++
            [{ month := month, year := year, templateId := templateId,
               kpiRef := matchingCourtRef, values := validatedValues,
               status := "generated", totalScore := sumScores validatedValues,
               createdBy := createdBy, createdFor := member.userId }],
           .success)

/-- The plain (no court) branch of the per-record loop
(kpi_entry.migration.ts:1089-1166): resolve by name, duplicate check without
the court condition, `kpiRef` from the member's first reference or the
hardcoded `{label:'area', value:'raipur'}` fallback. -/
def migrationStepPlain (env : MigrationEnv) (template : KpiTemplate)
    (month year : ℕ) (templateId createdBy : String) (store : List KpiEntryDoc)
    (record : CsvKpiData) : List KpiEntryDoc × RecordOutcome :=
  match env.byName record.officerName with
  | none => (store, .skipped)
  | some member =>
    if dupExists store member.userId month year templateId then
      (store, .skipped)
    else
      match validateAndCalculateScores template (recordValues record) with
      | .error _ => (store, .failed)
      | .ok validatedValues =>
        (store ++
          [{ month := month, year := year, templateId := templateId,
             kpiRef := member.kpiRef.headD ⟨"area", "raipur"⟩,
             values := validatedValues, status := "generated",
             totalScore := sumScores validatedValues,
             createdBy := createdBy, createdFor := member.userId }],
         .success)

/-- One iteration of the per-record loop: `if (record.courtName)` — the
court branch runs only on a present, nonempty court name (`''` is falsy). -/
def migrationStep (env : MigrationEnv) (template : KpiTemplate) (month year : ℕ)
    (templateId createdBy : String) (store : List KpiEntryDoc) (record : CsvKpiData) :
    List KpiEntryDoc × RecordOutcome :=
  match record.courtName with
  | some court =>
    if court == "" then
      migrationStepPlain env template month year templateId createdBy store record
    else
      migrationStepCourt env template month year templateId createdBy store record court
  | none => migrationStepPlain env template month year templateId createdBy store record

/-- The whole per-record loop: records processed sequentially, each yielding
one outcome; the store threads through. -/
def runMigrationRecords (env : MigrationEnv) (template : KpiTemplate)
    (month year : ℕ) (templateId createdBy : String) :
    List KpiEntryDoc → List CsvKpiData → List KpiEntryDoc × List RecordOutcome
  | store, [] => (store, [])
  | store, record :: rest =>
    let stepRes := migrationStep env template month year templateId createdBy store record
    let restRes := runMigrationRecords env template month year templateId createdBy
      stepRes.1 rest
    (restRes.1, stepRes.2 :: restRes.2)

/-- `MigrationResult` counters (kpi_entry.migration.ts:34-47; the `errors`
and `details` diagnostics are omitted). -/
structure MigrationResult where
  totalRecords : ℕ
  successfulEntries : ℕ
  failedEntries : ℕ
  skippedEntries : ℕ
deriving DecidableEq, Repr

/-- How many records ended with outcome `o`. -/
def countOutcomes (l : List RecordOutcome) (o : RecordOutcome) : ℕ :=
  (l.filter (fun x => x == o)).length

/-- `KpiMigrationService.createKpiEntryFromCsvData`
(kpi_entry.migration.ts:972-1193): fails when the template is absent,
otherwise processes every record and returns the final store and counters
(`totalRecords` is the record count, set up front). -/
def createKpiEntryFromCsvData (env : MigrationEnv) (template? : Option KpiTemplate)
    (csvData : List CsvKpiData) (month year : ℕ) (templateId createdBy : String)
    (store : List KpiEntryDoc) : Except String (List KpiEntryDoc × MigrationResult) :=
  match template? with
  | none => .error "Template not found"
  | some template =>
    let cb := if createdBy == "" then "system" else createdBy
    let run := runMigrationRecords env template month year templateId cb store csvData
    .ok (run.1,
      { totalRecords := csvData.length,
        successfulEntries := countOutcomes run.2 .success,
        failedEntries := countOutcomes run.2 .failed,
        skippedEntries := countOutcomes run.2 .skipped })

/-- `KpiMigrationService.fetchMemberByNameAndCourt`
(kpi_entry.migration.ts:903-967): over the members listing
(`GET /members?role=tehsildar&departmentSlug=revenue-department`, `none` for
a failed request), filter by exact name; none ⇒ null, exactly one ⇒ it,
several ⇒ the first whose `kpiRef` holds `{label:'court', value:courtName}`,
else the first same-named member.  Defined but never called by
`createKpiEntryFromCsvData`. -/
def fetchMemberByNameAndCourt (docs : Option (List Member)) (name courtName : String) :
    Option Member :=
  match docs with
  | none => none
  | some members =>
    let membersWithSameName := members.filter (fun m => m.name == name)
    match membersWithSameName with
    | [] => none
    | [m] => some m
    | _ =>
      match membersWithSameName.find? (fun m =>
        (m.kpiRef.filter (fun ref =>
          ref.label == "court" && ref.value == courtName)).length > 0) with
      | some m => some m
      | none => membersWithSameName.head?

/-- Identity resolution as the claim words it (spec §4.4, modelled from the
claim): among members with the exact name, the one whose reference list
contains `{label:'court', value:courtName}`; several same-named without a
court match fall back to the first; zero matches resolve to nothing. -/
def claimResolveMember (docs : List Member) (name courtName : String) : Option Member :=
  let sameName := docs.filter (fun m => m.name == name)
  match sameName.find? (fun m =>
    m.kpiRef.any (fun ref => ref.label == "court" && ref.value == courtName)) with
  | some m => some m
  | none => sameName.head?

/-! ## Statistics engine (kpi_entry.statistics.handler.ts:442-588) -/

/-- A stored entry as the rankings query reads it. -/
structure StatEntry where
  createdFor : String
  templateId : String
  totalScore : ℚ
  status : String
  month : ℕ
  year : ℕ
deriving DecidableEq, Repr

/-- One per-entry summary inside a ranking (`kpiEntries[i]`). -/
structure KpiEntrySummary where
  templateId : String
  templateName : String
  totalScore : ℚ
  maxPossibleScore : ℚ
  percentageScore : ℚ
  status : String
deriving DecidableEq, Repr

/-- `EmployeeRanking` (kpi_entry.statistics.handler.ts:372-389);
`percentageScore` and `rank` are 0 until assigned. -/
structure EmployeeRanking where
  employeeId : String
  createdFor : String
  departmentSlug : String
  role : String
  totalScore : ℚ
  maxPossibleScore : ℚ
  kpiEntries : List KpiEntrySummary
  percentageScore : ℚ
  rank : ℕ
deriving DecidableEq, Repr

/-- `StatisticsFilters` after the handler has normalized them: the list
filters are always present (possibly empty) and `limit`/`page` carry the
destructuring defaults 50 and 1 when the caller gave none. -/
structure StatisticsFilters where
  month : Option ℕ
  year : Option ℕ
  departments : List String
  roles : List String
  excludeDepartments : List String
  excludeRoles : List String
  limit : ℕ
  page : ℕ
deriving DecidableEq, Repr

/-- The returned page (kpi_entry.statistics.handler.ts:575-583). -/
structure RankingsPage where
  rankings : List EmployeeRanking
  total : ℕ
  page : ℕ
  limit : ℕ
  totalPages : ℕ
  hasNextPage : Bool
  hasPreviousPage : Bool
deriving DecidableEq, Repr

/-- The department filter fallback
(`departments.length > 0 ? departments : [...]`, also the destructuring
default). -/
def finalDepartmentsOf (departments : List String) : List String :=
  if departments.isEmpty then ["collector-office", "revenue-department"]
  else departments

/-- `Σ item.maxMarks` over a template
(`template.template?.reduce((sum, item) => sum + item.maxMarks, 0)`). -/
def templateMaxScore (template : KpiTemplate) : ℚ :=
  template.template.foldl (fun sum item => sum + item.maxMarks) 0

/-- The department inclusion/exclusion test
(kpi_entry.statistics.handler.ts:498-500). -/
def departmentMatchB (finalDepartments excludeDepartments : List String)
    (slug : String) : Bool :=
  finalDepartments.contains slug && !(excludeDepartments.contains slug)

/-- The role test (kpi_entry.statistics.handler.ts:502-508): an empty role
filter matches everything; otherwise some configured role must be a prefix
of the stored role (an empty stored role is falsy); exclusions subtract. -/
def roleMatchB (finalRoles excludeRoles : List String) (role : String) : Bool :=
  (finalRoles.isEmpty ||
    (!(role == "") && finalRoles.any (fun r => listStartsWith role.toList r.toList))) &&
  !(excludeRoles.any (fun r => !(role == "") && listStartsWith role.toList r.toList))

/-- A fresh per-employee accumulator (kpi_entry.statistics.handler.ts:514-524):
department and role come from the first matching entry's template. -/
def emptyEmployeeAcc (entry : StatEntry) (template : KpiTemplate) : EmployeeRanking :=
  { employeeId := entry.createdFor, createdFor := entry.createdFor,
    departmentSlug := template.departmentSlug, role := template.role,
    totalScore := 0, maxPossibleScore := 0, kpiEntries := [],
    percentageScore := 0, rank := 0 }

/-- Fold one entry into an employee accumulator
(kpi_entry.statistics.handler.ts:526-548). -/
def addEntryToAcc (acc : EmployeeRanking) (entry : StatEntry)
    (template : KpiTemplate) : EmployeeRanking :=
  let tm := templateMaxScore template
  { acc with
    totalScore := acc.totalScore + entry.totalScore,
    maxPossibleScore := acc.maxPossibleScore + tm,
    kpiEntries := acc.kpiEntries ++
      [{ templateId := entry.templateId, templateName := template.name,
         totalScore := entry.totalScore, maxPossibleScore := tm,
         percentageScore := if tm > 0 then entry.totalScore / tm * 100 else 0,
         status := entry.status }] }

/-- JS `Map` update keyed by `createdFor`: first-seen employees append in
insertion order, later entries fold into the existing accumulator. -/
def updateEmployeeGroups (groups : List (String × EmployeeRanking))
    (entry : StatEntry) (template : KpiTemplate) : List (String × EmployeeRanking) :=
  if groups.any (fun p => p.1 == entry.createdFor) then
    groups.map (fun p =>
      if p.1 == entry.createdFor then (p.1, addEntryToAcc p.2 entry template) else p)
  else
    groups ++ [(entry.createdFor, addEntryToAcc (emptyEmployeeAcc entry template) entry template)]

/-- The entry query filter: only `status == 'generated'`, month/year when
given (kpi_entry.statistics.handler.ts:467-471). -/
def statEntryFilter (month? year? : Option ℕ) (e : StatEntry) : Bool :=
  e.status == "generated" &&
  (match month? with | some m => e.month == m | none => true) &&
  (match year? with | some y => e.year == y | none => true)

/-- Grouping loop of `getEmployeeRankings`
(kpi_entry.statistics.handler.ts:491-548): entries without a known template
are dropped, the department/role filters apply per entry. -/
def employeeGroups (entries : List StatEntry) (templates : List KpiTemplate)
    (filters : StatisticsFilters) : List (String × EmployeeRanking) :=
  let finalDepartments := finalDepartmentsOf filters.departments
  (entries.filter (statEntryFilter filters.month filters.year)).foldl
    (fun groups e =>
      match templates.find? (fun t => t.id == e.templateId) with
      | none => groups
      | some t =>
        if departmentMatchB finalDepartments filters.excludeDepartments t.departmentSlug &&
           roleMatchB filters.roles filters.excludeRoles t.role then
          updateEmployeeGroups groups e t
        else groups)
    []

/-- Assign `rank := index + 1` down the sorted list
(`rankings.forEach((ranking, index) => ranking.rank = index + 1)`). -/
def addRanks (base : ℕ) : List EmployeeRanking → List EmployeeRanking
  | [] => []
  | r :: rest => { r with rank := base + 1 } :: addRanks (base + 1) rest

/-- The full ranked list before pagination: percentage per employee, stable
descending sort, 1-based ranks (kpi_entry.statistics.handler.ts:550-568). -/
def rankedList (entries : List StatEntry) (templates : List KpiTemplate)
    (filters : StatisticsFilters) : List EmployeeRanking :=
  addRanks 0 (sortByDesc (fun r => r.percentageScore)
    ((employeeGroups entries templates filters).map (fun p =>
      { p.2 with percentageScore :=
          if p.2.maxPossibleScore > 0 then p.2.totalScore / p.2.maxPossibleScore * 100
          else 0 })))

/-- `Math.ceil(total / limit)` on naturals (`limit = 0`, which JS would turn
into `Infinity`, does not occur: the destructuring default is 50). -/
def natCeilDiv (total limit : ℕ) : ℕ :=
  if limit = 0 then 0 else (total + limit - 1) / limit

/-- `KpiEntryStatistics.getEmployeeRankings`
(kpi_entry.statistics.handler.ts:446-588): the pure core over the fetched
entries and templates; pagination slices the sorted full set
(`page ≥ 1`, as the handler guarantees). -/
def getEmployeeRankings (entries : List StatEntry) (templates : List KpiTemplate)
    (filters : StatisticsFilters) : RankingsPage :=
  let ranked := rankedList entries templates filters
  let startIndex := (filters.page - 1) * filters.limit
  let totalPages := natCeilDiv ranked.length filters.limit
  { rankings := (ranked.drop startIndex).take filters.limit,
    total := ranked.length, page := filters.page, limit := filters.limit,
    totalPages := totalPages,
    hasNextPage := decide (filters.page < totalPages),
    hasPreviousPage := decide (filters.page > 1) }

/-! ## Entry service (unnamed service file, `KpiEntryService`) -/

/-- A stored entry with its document id (the service addresses entries by
id). -/
structure StoredKpiEntry where
  id : String
  month : ℕ
  year : ℕ
  templateId : String
  kpiRef : KpiRef
  values : List ScoredValue
  status : String
  totalScore : ℚ
  createdBy : String
  createdFor : String
deriving DecidableEq, Repr

/-- The partial update body of `updateKpiEntry`.  Other scalar fields of
`KpiEntryUpdate` (month, year, …) pass through the same spread and are
orthogonal to the status behaviour; they are omitted. -/
structure KpiEntryUpdate where
  values : Option (List NameValue)
  status : Option String
deriving Repr

/-- `findById` / `findOne({_id: id})`. -/
def findEntry (store : List StoredKpiEntry) (id : String) : Option StoredKpiEntry :=
  store.find? (fun e => e.id == id)

/-- JS `Map.set` on an association list: replace in place, else append. -/
def setAssoc (l : List (String × KpiValue)) (k : String) (v : KpiValue) :
    List (String × KpiValue) :=
  if l.any (fun p => p.1 == k) then
    l.map (fun p => if p.1 == k then (k, v) else p)
  else l ++ [(k, v)]

/-- The merge of `updateKpiEntry` (service lines 177-192): a `Map` of the
existing values by name, then each new value `set` over it; insertion order
is kept, new names append. -/
def mergeValuesByName (existing : List ScoredValue) (newValues : List NameValue) :
    List NameValue :=
  let init := (existing.map (fun v => (v.name, v.value))).foldl
    (fun acc p => setAssoc acc p.1 p.2) []
  let merged := newValues.foldl (fun acc v => setAssoc acc v.name v.value) init
  merged.map (fun p => NameValue.mk p.1 p.2)

/-- `KpiEntryValidation.validateTemplateItems` (kpi_entry.model.ts:323-338). -/
def validateTemplateItems (template : KpiTemplate) (values : List NameValue) :
    Except String Unit :=
  let providedNames := values.map (fun v => v.name)
  let templateNames := template.template.map (fun item => item.name)
  let invalidItems := providedNames.filter (fun n => !(templateNames.contains n))
  if invalidItems.length > 0 then .error "Invalid KPI items" else .ok ()

/-- `findByIdAndUpdate(id, { ...kpiEntry, status: 'initiated' }, {new: true})`
(service lines 228-237): the update document carries whatever fields the
body provided — and then `status` is forced to `'initiated'`, overriding
even an explicitly supplied status (`status?` is therefore ignored). -/
def finishUpdate (store : List StoredKpiEntry) (id : String)
    (values? : Option (List ScoredValue)) (totalScore? : Option ℚ)
    (status? : Option String) : List StoredKpiEntry × Option StoredKpiEntry :=
  match findEntry store id with
  | none => (store, none)
  | some _ =>
    let apply := fun (e : StoredKpiEntry) =>
      { e with values := values?.getD e.values,
               totalScore := totalScore?.getD e.totalScore,
               status := "initiated" }
    (store.map (fun e => if e.id == id then apply e else e),
     (findEntry store id).map apply)

/-- `KpiEntryService.updateKpiEntry` (service lines 159-244): when `values`
are supplied, merge them by name into the existing entry's values,
revalidate against the template, recompute scores and the total; either
way the final write forces `status: 'initiated'`. -/
def updateKpiEntry (templates : List KpiTemplate) (store : List StoredKpiEntry)
    (id : String) (upd : KpiEntryUpdate) :
    Except String (List StoredKpiEntry × Option StoredKpiEntry) :=
  match upd.values with
  | some newValues =>
    match findEntry store id with
    | none => .error "KPI entry not found"
    | some existingEntry =>
      match templates.find? (fun t => t.id == existingEntry.templateId) with
      | none => .error "KPI template not found"
      | some template =>
        let mergedValues := mergeValuesByName existingEntry.values newValues
        match validateTemplateItems template mergedValues with
        | .error e => .error e
        | .ok _ =>
          match validateAndCalculateScores template mergedValues with
          | .error e => .error e
          | .ok validatedValues =>
            .ok (finishUpdate store id (some validatedValues)
              (some (sumScores validatedValues)) upd.status)
  | none => .ok (finishUpdate store id none none upd.status)

/-- `KpiEntryService.updateKpiEntryStatus` (service lines 246-264): set
exactly the requested status, touch nothing else. -/
def updateKpiEntryStatus (store : List StoredKpiEntry) (id : String)
    (status : String) : List StoredKpiEntry × Option StoredKpiEntry :=
  match findEntry store id with
  | none => (store, none)
  | some _ =>
    let apply := fun (e : StoredKpiEntry) => { e with status := status }
    (store.map (fun e => if e.id == id then apply e else e),
     (findEntry store id).map apply)

/-! ## Concrete fixtures used by the claim theorems -/

/-- Score-type item of the §8 example (`maxMarks = 20`, no rules). -/
def c3Item : TemplateItem := ⟨"X", 20, "score", []⟩

/-- Template holding only `c3Item`. -/
def c3Template : KpiTemplate := ⟨"t3", "tpl3", "revenue-department", "sdm", [c3Item]⟩

/-- Headers for the C2 counterexample: the KPI column exists. -/
def c2Headers : List String := ["पीठासीन अधिकारी", "व्यपवर्तन"]

/-- Header mapping the parser would hold for the SDM KPI `व्यपवर्तन`. -/
def c2Mapping : HeaderMapping := ⟨"व्यपवर्तन", "व्यपवर्तन", 1⟩

/-- A data row whose block at the SDM ordinal (base index 2) reads
registered 10, disposed 5. -/
def c2Values : List String := ["RAM", "K", "10", "5", "0", "0", "0", "0", "0", "0"]

/-- Headers containing the first tehsildar KPI (for the §8 extraction
example). -/
def c2TehHeaders : List String :=
  ["पीठासीन अधिकारी", "न्यायालय", "खाता विभाजन (विवादित + अविवादित)"]

/-- Header mapping for the first tehsildar KPI. -/
def c2TehMapping : HeaderMapping :=
  ⟨"खाता विभाजन (विवादित + अविवादित)", "खाता विभाजन (विवादित + अविवादित)", 1⟩

/-- Member resolved by the name endpoint in the C4 counterexample: handles
court `A` only. -/
def c4M1 : Member := ⟨"U1", "RAM", [⟨"court", "A"⟩]⟩

/-- Same-named member that handles court `B`. -/
def c4M2 : Member := ⟨"U2", "RAM", [⟨"court", "B"⟩]⟩

/-- The role/department member listing of the C4 counterexample. -/
def c4Docs : List Member := [c4M1, c4M2]

/-- Identity service for C4: the name endpoint returns `c4M1`. -/
def c4Env : MigrationEnv := ⟨fun n => if n == "RAM" then some c4M1 else none⟩

/-- A percentage template item accepting any value of the §8 rules. -/
def c4Item : TemplateItem := ⟨"X", 10, "percentage", c1Rules⟩

/-- Template for the migration fixtures. -/
def c4Template : KpiTemplate :=
  ⟨"T", "tpl", "revenue-department", "tehsildar", [c4Item]⟩

/-- CSV record naming court `B`, which `c4M1` does not handle. -/
def c4Record : CsvKpiData := ⟨"RAM", some "B", [("X", 50)]⟩

/-- Identity service for C5: `RAM` resolves to a member without references. -/
def c5Env : MigrationEnv := ⟨fun n => if n == "RAM" then some ⟨"U", "RAM", []⟩ else none⟩

/-- Template with no items: any submitted value name is unknown. -/
def c5Template : KpiTemplate := ⟨"T5", "tpl5", "revenue-department", "sdm", []⟩

/-- Record whose value fails validation (unknown item) on every run. -/
def c5Record : CsvKpiData := ⟨"RAM", none, [("X", 50)]⟩

/-- A record that migrates successfully against `c4Template` (no court). -/
def c5wRecord : CsvKpiData := ⟨"RAM", none, [("X", 50)]⟩

/-- The document the successful C5 witness run inserts. -/
def c5wDoc : KpiEntryDoc :=
  ⟨1, 2024, "T", ⟨"court", "A"⟩, [⟨"X", .num 50, 5⟩], "generated", 5, "sys", "U1"⟩

/-- A CSV with ONLY the two header lines — no data rows at all. -/
def c7Csv : String :=
  "पीठासीन अधिकारी,न्यायालय,सीमांकन\nRAM,courtX,0,0,0,0,0,0,10,5"

/-- The record `parseCsvData` produces from the sub-header line of `c7Csv`. -/
def c7Record : CsvKpiData := ⟨"RAM", some "courtX", [("सीमांकन", 50)]⟩

/-- A stored entry with status `created`. -/
def c8Entry : StoredKpiEntry :=
  ⟨"E", 1, 2024, "T", ⟨"area", "raipur"⟩, [], "created", 0, "admin", "U"⟩

/-- Three employees with one generated entry each: totals 90, 70, 50
against a 100-mark template. -/
def c9Entries : List StatEntry :=
  [⟨"E1", "T1", 90, "generated", 1, 2024⟩,
   ⟨"E2", "T1", 70, "generated", 1, 2024⟩,
   ⟨"E3", "T1", 50, "generated", 1, 2024⟩]

/-- The template the C9 entries score against (`Σ maxMarks = 100`). -/
def c9Templates : List KpiTemplate :=
  [⟨"T1", "tpl1", "collector-office", "sdm", [⟨"A", 100, "quantitative", []⟩]⟩]

/-- `limit = 2, page = 1`, no other filters. -/
def c9Filters : StatisticsFilters := ⟨none, none, [], [], [], [], 2, 1⟩

theorem percentageScan_eq_find (x : ℚ) (l : List ScoringRule) :
    percentageScan x l =
      (match l.find? (percRuleHits x) with
       | some r => r.score
       | none => 0) := by
  induction l with
  | nil => rfl
  | cons r rs ih =>
    by_cases h : percRuleHits x r
    · simp [percentageScan, List.find?, h]
    · simp only [percentageScan, List.find?]
      rw [if_neg h, Bool.of_not_eq_true h]
      exact ih

/-- C1: for every percentage-type template item, the score computed by the
scoring engine is obtained by sorting the item's rules descending by
`value` and returning the score of the first rule whose `value` is ≤ the
input, 0 when none matches; on rules
`[{value:90,score:10},{value:70,score:7},{value:50,score:5}]` input 96
scores 10, input 75 scores 7, input 40 scores 0. -/
theorem C1_percentage_scoring (item : TemplateItem) (x : ℚ)
    (h : item.kpiType = "percentage") :
    calculateScore item (.num x) = specPercentageScore item.scoringRules x ∧
    calculateScore c1Item (.num 96) = 10 ∧
    calculateScore c1Item (.num 75) = 7 ∧
    calculateScore c1Item (.num 40) = 0 := by
  refine ⟨?_, ?_, ?_, ?_⟩
  · have h1 : (item.kpiType == "score") = false := by rw [h]; decide
    have h2 : (item.kpiType == "percentage") = true := by rw [h]; decide
    simp only [calculateScore, h1, h2, Bool.false_eq_true, if_false, if_true,
      specPercentageScore, KpiValue.asNumber, percentageScan_eq_find]
  · with_unfolding_all decide
  · with_unfolding_all decide
  · with_unfolding_all decide

/-- Witness: C1 at the §8 item and input 96. -/
theorem C1_percentage_scoring_witness :
    calculateScore c1Item (.num 96) = specPercentageScore c1Item.scoringRules 96 ∧
    calculateScore c1Item (.num 96) = 10 ∧
    calculateScore c1Item (.num 75) = 7 ∧
    calculateScore c1Item (.num 40) = 0 :=
  C1_percentage_scoring c1Item 96 rfl

/-- C3 counterexample: `ValidateAndScore` on a score-type item with
`maxMarks = 20` and input 25 does not return the claimed clamped score 20 —
it rejects the value (25 is outside `[0, maxMarks]`) and returns an error. -/
theorem C3_validate_rejects_over_max :
    validateAndCalculateScores c3Template [⟨"X", .num 25⟩] =
      .error "score out of range" := by
  with_unfolding_all rfl

/-- C3 amended: the scoring step itself clamps (`calculateScore` returns
`min(value, maxMarks)`, so 25 ↦ 20 and 15 ↦ 15 with `maxMarks = 20`), but
`ValidateAndScore` validates first and fails on 25 > maxMarks instead of
returning 20; the in-domain input 15 passes through with score 15. -/
theorem C3_score_clamp (item : TemplateItem) (q : ℚ)
    (h : item.kpiType = "score") :
    calculateScore item (.num q) = min q item.maxMarks ∧
    calculateScore c3Item (.num 25) = 20 ∧
    calculateScore c3Item (.num 15) = 15 ∧
    validateAndCalculateScores c3Template [⟨"X", .num 15⟩] =
      .ok [⟨"X", .num 15, 15⟩] ∧
    validateAndCalculateScores c3Template [⟨"X", .num 25⟩] =
      .error "score out of range" := by
  refine ⟨?_, ?_, ?_, ?_, ?_⟩
  · have h1 : (item.kpiType == "score") = true := by rw [h]; decide
    simp only [calculateScore, h1, if_true, KpiValue.asNumber]
  · with_unfolding_all decide
  · with_unfolding_all decide
  · with_unfolding_all rfl
  · with_unfolding_all rfl

/-- Witness: C3 amended at `c3Item` and input 25. -/
theorem C3_score_clamp_witness :
    calculateScore c3Item (.num 25) = min 25 c3Item.maxMarks ∧
    calculateScore c3Item (.num 25) = 20 ∧
    calculateScore c3Item (.num 15) = 15 ∧
    validateAndCalculateScores c3Template [⟨"X", .num 15⟩] =
      .ok [⟨"X", .num 15, 15⟩] ∧
    validateAndCalculateScores c3Template [⟨"X", .num 25⟩] =
      .error "score out of range" :=
  C3_score_clamp c3Item 25 rfl

/-- C2 counterexample: under the active `revenue-department-sdm`
configuration, the percentage KPI `व्यपवर्तन` has ordinal 0, so the claim
predicts the block at base index 2 (registered 10, disposed 5 ⇒ 50.00);
the code instead looks the ordinal up in the hard-coded tehsildar
configuration, where `व्यपवर्तन` does not occur, and extracts nothing. -/
theorem C2_sdm_ordinal_mismatch :
    extractPercentageWithMapping c2Values c2Headers [] c2Mapping "व्यपवर्तन" [] = none ∧
    claimExtractPercentage sdmConfig c2Values "व्यपवर्तन" = some 50 := by
  constructor
  · with_unfolding_all rfl
  · with_unfolding_all rfl

/-- C2 amended: the extraction is positional with
`baseIndex = 2 + ordinal * 3`, registered/disposed parsed as integers and
`min(disposed/registered*100, 100)` rounded to 2 decimals when
registered > 0 — but the ordinal is located in the hard-coded
`revenue-department-tehsildar` configuration's KPI list, not the active
configuration's; the two agree only for the tehsildar configuration
itself.  The §8 example (registered 100, disposed 96 at ordinal 0) yields
96. -/
theorem C2_positional_extraction (values headers subHeaders : List String)
    (kpiMapping : HeaderMapping) (kpiName : String) (allKpiNames : List String) :
    extractPercentageWithMapping values headers subHeaders kpiMapping kpiName allKpiNames =
      (match headers.findIdx? (fun hh => jsTrim hh == kpiMapping.originalHeader) with
       | none => none
       | some _ => claimExtractPercentage tehsildarConfig values kpiName) ∧
    extractPercentageWithMapping ["off", "court", "100", "96"] c2TehHeaders []
      c2TehMapping "खाता विभाजन (विवादित + अविवादित)" [] = some 96 := by
  constructor
  · unfold extractPercentageWithMapping claimExtractPercentage
    have hc : lookupStr csvParserConfigs "revenue-department-tehsildar" =
        some tehsildarConfig := by with_unfolding_all rfl
    rw [hc]
  · with_unfolding_all rfl

theorem filter_length_pos_eq_any {α : Type} (p : α → Bool) (l : List α) :
    decide ((l.filter p).length > 0) = l.any p := by
  induction l with
  | nil => rfl
  | cons x xs ih =>
    by_cases h : p x
    · simp [List.filter_cons, h]
    · simp only [List.filter_cons, Bool.of_not_eq_true h, if_false, List.any_cons,
        Bool.of_not_eq_true h, Bool.false_or]
      exact ih

/-- C4 counterexample: the record names court `B`; the claim's procedure
(fetch the role/department members, filter by exact name, pick the
court-matching one) resolves to `c4M2`, who handles `B` — but the
orchestrator resolves through the name endpoint, gets `c4M1`, finds no `B`
reference in that member and skips the record instead. -/
theorem C4_orchestrator_skips_court_mismatch :
    migrationStep c4Env c4Template 1 2024 "T" "sys" [] c4Record = ([], .skipped) ∧
    claimResolveMember c4Docs "RAM" "B" = some c4M2 ∧
    c4M2.kpiRef.any (fun ref => ref.label == "court" && ref.value == "B") = true := by
  refine ⟨?_, ?_, ?_⟩
  · with_unfolding_all rfl
  · with_unfolding_all rfl
  · with_unfolding_all rfl

/-- C4 amended: the selection the claim describes is implemented by
`fetchMemberByNameAndCourt` (which agrees with the claim's procedure on
every member listing), but `createKpiEntryFromCsvData` never calls it: it
resolves by the name endpoint, and when the resolved member's reference
list lacks `{label:'court', value:courtName}` the record is skipped — there
is no fallback to another same-named member. -/
theorem C4_court_resolution (docs : List Member) (name court : String)
    (env : MigrationEnv) (template : KpiTemplate) (month year : ℕ)
    (templateId createdBy : String) (store : List KpiEntryDoc)
    (record : CsvKpiData) (member : Member)
    (hc : record.courtName = some court) (hne : (court == "") = false)
    (hm : env.byName record.officerName = some member)
    (href : member.kpiRef.find?
      (fun ref => ref.label == "court" && ref.value == court) = none) :
    fetchMemberByNameAndCourt (some docs) name court =
      claimResolveMember docs name court ∧
    migrationStep env template month year templateId createdBy store record =
      (store, .skipped) := by
  constructor
  · have hpred :
        (fun (m : Member) => decide ((m.kpiRef.filter
          (fun ref => ref.label == "court" && ref.value == court)).length > 0)) =
        (fun (m : Member) => m.kpiRef.any
          (fun ref => ref.label == "court" && ref.value == court)) := by
      funext m
      exact filter_length_pos_eq_any _ _
    simp only [fetchMemberByNameAndCourt, claimResolveMember, hpred]
    cases hfl : docs.filter (fun m => m.name == name) with
    | nil => rfl
    | cons m1 tl =>
      cases tl with
      | nil =>
        cases hp : m1.kpiRef.any (fun ref => ref.label == "court" && ref.value == court) with
        | true => simp [List.find?, hp]
        | false => simp [List.find?, hp]
      | cons m2 tl2 =>
        cases hfind : (m1 :: m2 :: tl2).find?
            (fun m => m.kpiRef.any (fun ref => ref.label == "court" && ref.value == court)) with
        | some m => rfl
        | none => rfl
  · unfold migrationStep
    rw [hc]
    simp only [hne, Bool.false_eq_true, if_false]
    unfold migrationStepCourt
    simp only [hm, href]

/-- Witness: C4 amended at the concrete counterexample instance. -/
theorem C4_court_resolution_witness :
    (fetchMemberByNameAndCourt (some c4Docs) "RAM" "B" =
      claimResolveMember c4Docs "RAM" "B") ∧
    migrationStep c4Env c4Template 1 2024 "T" "sys" [] c4Record =
      ([], .skipped) :=
  C4_court_resolution c4Docs "RAM" "B" c4Env c4Template 1 2024 "T" "sys" []
    c4Record c4M1 (by with_unfolding_all rfl) (by with_unfolding_all rfl)
    (by with_unfolding_all rfl) (by with_unfolding_all rfl)

theorem finishUpdate_status (store : List StoredKpiEntry) (id : String)
    (values? : Option (List ScoredValue)) (totalScore? : Option ℚ)
    (status? : Option String) (st2 : List StoredKpiEntry) (e : StoredKpiEntry)
    (h : finishUpdate store id values? totalScore? status? = (st2, some e)) :
    e.status = "initiated" := by
  unfold finishUpdate at h
  cases hf : findEntry store id with
  | none =>
    rw [hf] at h
    simp at h
  | some e0 =>
    rw [hf] at h
    simp only [Option.map_some', Prod.mk.injEq, Option.some.injEq] at h
    rw [← h.2]

/-- C8 counterexample: an update that touches nothing (no values, no
status) still flips a `created` entry to `initiated` — `updateKpiEntry`
does not leave the status field unchanged. -/
theorem C8_empty_update_changes_status :
    updateKpiEntry [] [c8Entry] "E" ⟨none, none⟩ =
      .ok ([{ c8Entry with status := "initiated" }],
           some { c8Entry with status := "initiated" }) ∧
    c8Entry.status = "created" := by
  constructor
  · with_unfolding_all rfl
  · rfl

/-- C8 amended: `updateKpiEntry` always sets the status to `initiated`
(the spread `{...kpiEntry, status: 'initiated'}` overrides even an
explicitly supplied status), so the status IS advanced automatically on
every successful update; the explicit status operation
`updateKpiEntryStatus` sets exactly the requested status. -/
theorem C8_status_behaviour (templates : List KpiTemplate)
    (store : List StoredKpiEntry) (id : String) (upd : KpiEntryUpdate)
    (store2 : List StoredKpiEntry) (e : StoredKpiEntry)
    (h : updateKpiEntry templates store id upd = .ok (store2, some e)) :
    e.status = "initiated" ∧
    (∀ st id2 status st2 e2,
      updateKpiEntryStatus st id2 status = (st2, some e2) → e2.status = status) := by
  constructor
  · unfold updateKpiEntry at h
    split at h
    · split at h
      · exact Except.noConfusion h
      · split at h
        · exact Except.noConfusion h
        · simp only [] at h
          split at h
          · exact Except.noConfusion h
          · split at h
            · exact Except.noConfusion h
            · simp only [Except.ok.injEq] at h
              exact finishUpdate_status _ _ _ _ _ _ _ h
    · simp only [Except.ok.injEq] at h
      exact finishUpdate_status _ _ _ _ _ _ _ h
  · intro st id2 status st2 e2 h2
    unfold updateKpiEntryStatus at h2
    cases hf : findEntry st id2 with
    | none =>
      rw [hf] at h2
      simp at h2
    | some e0 =>
      rw [hf] at h2
      simp only [Option.map_some', Prod.mk.injEq, Option.some.injEq] at h2
      rw [← h2.2]

/-- Witness: C8 amended at the empty-update instance. -/
theorem C8_status_behaviour_witness :
    ({ c8Entry with status := "initiated" } : StoredKpiEntry).status = "initiated" ∧
    (∀ st id2 status st2 e2,
      updateKpiEntryStatus st id2 status = (st2, some e2) → e2.status = status) :=
  C8_status_behaviour [] [c8Entry] "E" ⟨none, none⟩
    [{ c8Entry with status := "initiated" }] { c8Entry with status := "initiated" }
    (by with_unfolding_all rfl)

theorem countOutcomes_cons_eq (o : RecordOutcome) (l : List RecordOutcome)
    (x : RecordOutcome) (h : o = x) :
    countOutcomes (o :: l) x = countOutcomes l x + 1 := by
  subst h
  simp [countOutcomes, List.filter_cons]

theorem countOutcomes_cons_ne (o : RecordOutcome) (l : List RecordOutcome)
    (x : RecordOutcome) (h : o ≠ x) :
    countOutcomes (o :: l) x = countOutcomes l x := by
  have hb : (o == x) = false := by
    cases hx : o == x
    · rfl
    · exact absurd (eq_of_beq hx) h
  simp [countOutcomes, List.filter_cons, hb]

theorem countOutcomes_partition (l : List RecordOutcome) :
    countOutcomes l .success + countOutcomes l .failed + countOutcomes l .skipped =
      l.length := by
  induction l with
  | nil => rfl
  | cons o rest ih =>
    cases o with
    | success =>
      rw [countOutcomes_cons_eq _ _ _ rfl,
          countOutcomes_cons_ne _ _ _ (by decide),
          countOutcomes_cons_ne _ _ _ (by decide), List.length_cons]
      omega
    | failed =>
      rw [countOutcomes_cons_ne _ _ _ (by decide),
          countOutcomes_cons_eq _ _ _ rfl,
          countOutcomes_cons_ne _ _ _ (by decide), List.length_cons]
      omega
    | skipped =>
      rw [countOutcomes_cons_ne _ _ _ (by decide),
          countOutcomes_cons_ne _ _ _ (by decide),
          countOutcomes_cons_eq _ _ _ rfl, List.length_cons]
      omega

theorem countOutcomes_all_eq (l : List RecordOutcome) (x : RecordOutcome)
    (h : ∀ o ∈ l, o = x) : countOutcomes l x = l.length := by
  induction l with
  | nil => rfl
  | cons o rest ih =>
    rw [countOutcomes_cons_eq _ _ _ (h o (List.mem_cons_self o rest)), List.length_cons,
      ih (fun o2 ho2 => h o2 (List.mem_cons_of_mem _ ho2))]

theorem countOutcomes_none (l : List RecordOutcome) (x : RecordOutcome)
    (h : ∀ o ∈ l, o ≠ x) : countOutcomes l x = 0 := by
  induction l with
  | nil => rfl
  | cons o rest ih =>
    rw [countOutcomes_cons_ne _ _ _ (h o (List.mem_cons_self o rest)),
      ih (fun o2 ho2 => h o2 (List.mem_cons_of_mem _ ho2))]

theorem countOutcomes_cons_failed_zero (o : RecordOutcome) (l : List RecordOutcome)
    (h : countOutcomes (o :: l) .failed = 0) :
    o ≠ .failed ∧ countOutcomes l .failed = 0 := by
  by_cases ho : o = .failed
  · rw [countOutcomes_cons_eq _ _ _ ho] at h
    exact absurd h (by omega)
  · rw [countOutcomes_cons_ne _ _ _ ho] at h
    exact ⟨ho, h⟩

theorem runMigrationRecords_length (env : MigrationEnv) (template : KpiTemplate)
    (month year : ℕ) (tid cb : String) (csvData : List CsvKpiData) :
    ∀ store,
      ((runMigrationRecords env template month year tid cb store csvData).2).length =
        csvData.length := by
  induction csvData with
  | nil => intro store; rfl
  | cons r rs ih =>
    intro store
    simp only [runMigrationRecords, List.length_cons]
    rw [ih]

/-- C6: every completed run satisfies
`totalRecords = successfulEntries + failedEntries + skippedEntries`: each
record increments exactly one of the three counters and failures never
abort the remaining batch. -/
theorem C6_counter_partition (env : MigrationEnv) (template : KpiTemplate)
    (csvData : List CsvKpiData) (month year : ℕ) (templateId createdBy : String)
    (store : List KpiEntryDoc) :
    ∃ finalStore result,
      createKpiEntryFromCsvData env (some template) csvData month year templateId
        createdBy store = .ok (finalStore, result) ∧
      result.totalRecords = csvData.length ∧
      result.successfulEntries + result.failedEntries + result.skippedEntries =
        result.totalRecords := by
  refine ⟨_, _, rfl, rfl, ?_⟩
  show countOutcomes _ .success + countOutcomes _ .failed + countOutcomes _ .skipped =
    csvData.length
  rw [countOutcomes_partition]
  exact runMigrationRecords_length env template month year templateId _ csvData store

theorem migrationStep_shape (env : MigrationEnv) (template : KpiTemplate)
    (month year : ℕ) (tid cb : String) (store : List KpiEntryDoc)
    (record : CsvKpiData) :
    (migrationStep env template month year tid cb store record).1 = store ∨
    ∃ d, (migrationStep env template month year tid cb store record).1 = store ++ [d] := by
  unfold migrationStep migrationStepCourt migrationStepPlain
  repeat' split
  all_goals first | (left; rfl) | (right; exact ⟨_, rfl⟩)

theorem migrationStep_mono (env : MigrationEnv) (template : KpiTemplate)
    (month year : ℕ) (tid cb : String) (store : List KpiEntryDoc)
    (record : CsvKpiData) :
    ∀ e ∈ store, e ∈ (migrationStep env template month year tid cb store record).1 := by
  intro e he
  rcases migrationStep_shape env template month year tid cb store record with h | ⟨d, h⟩
  · rw [h]; exact he
  · rw [h]; exact List.mem_append_left _ he

theorem runMigrationRecords_mono (env : MigrationEnv) (template : KpiTemplate)
    (month year : ℕ) (tid cb : String) (csvData : List CsvKpiData) :
    ∀ store e, e ∈ store →
      e ∈ (runMigrationRecords env template month year tid cb store csvData).1 := by
  induction csvData with
  | nil => intro store e he; exact he
  | cons r rs ih =>
    intro store e he
    simp only [runMigrationRecords]
    exact ih _ e (migrationStep_mono env template month year tid cb store r e he)

theorem dupExists_mono (store store2 : List KpiEntryDoc) (u : String) (m y : ℕ)
    (t : String) (hsub : ∀ e ∈ store, e ∈ store2)
    (h : dupExists store u m y t = true) : dupExists store2 u m y t = true := by
  unfold dupExists at h ⊢
  rw [List.any_eq_true] at h ⊢
  obtain ⟨e, he, hp⟩ := h
  exact ⟨e, hsub e he, hp⟩

theorem dupExistsCourt_mono (store store2 : List KpiEntryDoc) (u : String) (m y : ℕ)
    (t c : String) (hsub : ∀ e ∈ store, e ∈ store2)
    (h : dupExistsCourt store u m y t c = true) :
    dupExistsCourt store2 u m y t c = true := by
  unfold dupExistsCourt at h ⊢
  rw [List.any_eq_true] at h ⊢
  obtain ⟨e, he, hp⟩ := h
  exact ⟨e, hsub e he, hp⟩

theorem migrationStepPlain_second (env : MigrationEnv) (template : KpiTemplate)
    (month year : ℕ) (tid cb : String) (store store1 store2 : List KpiEntryDoc)
    (record : CsvKpiData) (o : RecordOutcome)
    (h : migrationStepPlain env template month year tid cb store record = (store1, o))
    (hsub : ∀ e ∈ store1, e ∈ store2) :
    ∃ o2, migrationStepPlain env template month year tid cb store2 record = (store2, o2) ∧
      o2 ≠ .success ∧ (o ≠ .failed → o2 = .skipped) := by
  unfold migrationStepPlain at h ⊢
  cases hb : env.byName record.officerName with
  | none =>
    simp only [hb] at h ⊢
    exact ⟨.skipped, rfl, by simp, fun _ => rfl⟩
  | some member =>
    simp only [hb] at h ⊢
    by_cases hdup2 : dupExists store2 member.userId month year tid = true
    · rw [if_pos hdup2]
      exact ⟨.skipped, rfl, by simp, fun _ => rfl⟩
    · rw [if_neg hdup2]
      have hdup1 : dupExists store member.userId month year tid = false := by
        cases hd : dupExists store member.userId month year tid
        · rfl
        · have hss : ∀ e ∈ store, e ∈ store2 := by
            intro e he
            apply hsub
            rw [if_pos hd] at h
            rcases (Prod.mk.injEq _ _ _ _).mp h with ⟨h1, -⟩
            rw [← h1]
            exact he
          exact absurd (dupExists_mono store store2 member.userId month year tid hss hd) hdup2
      rw [if_neg (by rw [hdup1]; simp)] at h
      cases hv : validateAndCalculateScores template (recordValues record) with
      | error msg =>
        rw [hv] at h
        have h2 : RecordOutcome.failed = o := congrArg Prod.snd h
        exact ⟨.failed, rfl, by simp, fun hno => absurd h2.symm hno⟩
      | ok validatedValues =>
        rw [hv] at h
        have h1 :
            store ++
              [{ month := month, year := year, templateId := tid,
                 kpiRef := member.kpiRef.headD { label := "area", value := "raipur" },
                 values := validatedValues, status := "generated",
                 totalScore := sumScores validatedValues, createdBy := cb,
                 createdFor := member.userId }] = store1 := congrArg Prod.fst h
        exfalso
        apply hdup2
        apply List.any_eq_true.mpr
        refine ⟨{ month := month, year := year, templateId := tid,
                  kpiRef := member.kpiRef.headD { label := "area", value := "raipur" },
                  values := validatedValues, status := "generated",
                  totalScore := sumScores validatedValues, createdBy := cb,
                  createdFor := member.userId }, hsub _ ?_, ?_⟩
        · rw [← h1]
          exact List.mem_append_right _ (List.mem_singleton.mpr rfl)
        · simp

/-- Witnessing predicate fact: a court-branch document matches the court
duplicate filter, because `matchingCourtRef` came out of the `find?` over
`{label:'court', value:court}`. -/
theorem migrationStepCourt_second (env : MigrationEnv) (template : KpiTemplate)
    (month year : ℕ) (tid cb : String) (store store1 store2 : List KpiEntryDoc)
    (record : CsvKpiData) (court : String) (o : RecordOutcome)
    (h : migrationStepCourt env template month year tid cb store record court =
      (store1, o))
    (hsub : ∀ e ∈ store1, e ∈ store2) :
    ∃ o2, migrationStepCourt env template month year tid cb store2 record court =
      (store2, o2) ∧ o2 ≠ .success ∧ (o ≠ .failed → o2 = .skipped) := by
  unfold migrationStepCourt at h ⊢
  cases hb : env.byName record.officerName with
  | none =>
    simp only [hb] at h ⊢
    exact ⟨.skipped, rfl, by simp, fun _ => rfl⟩
  | some member =>
    simp only [hb] at h ⊢
    cases hf : member.kpiRef.find? (fun ref => ref.label == "court" && ref.value == court) with
    | none =>
      simp only [hf] at h ⊢
      exact ⟨.skipped, rfl, by simp, fun _ => rfl⟩
    | some matchingCourtRef =>
      simp only [hf] at h ⊢
      have hrefv : (matchingCourtRef.value == court) = true := by
        have := List.find?_some hf
        exact (Bool.and_eq_true _ _ |>.mp this).2
      by_cases hdup2 : dupExistsCourt store2 member.userId month year tid court = true
      · rw [if_pos hdup2]
        exact ⟨.skipped, rfl, by simp, fun _ => rfl⟩
      · rw [if_neg hdup2]
        have hdup1 : dupExistsCourt store member.userId month year tid court = false := by
          cases hd : dupExistsCourt store member.userId month year tid court
          · rfl
          · have hss : ∀ e ∈ store, e ∈ store2 := by
              intro e he
              apply hsub
              rw [if_pos hd] at h
              rcases (Prod.mk.injEq _ _ _ _).mp h with ⟨h1, -⟩
              rw [← h1]
              exact he
            exact absurd
              (dupExistsCourt_mono store store2 member.userId month year tid court hss hd)
              hdup2
        rw [if_neg (by rw [hdup1]; simp)] at h
        cases hv : validateAndCalculateScores template (recordValues record) with
        | error msg =>
          rw [hv] at h
          have h2 : RecordOutcome.failed = o := congrArg Prod.snd h
          exact ⟨.failed, rfl, by simp, fun hno => absurd h2.symm hno⟩
        | ok validatedValues =>
          rw [hv] at h
          have h1 :
              store ++
                [{ month := month, year := year, templateId := tid,
                   kpiRef := matchingCourtRef, values := validatedValues,
                   status := "generated", totalScore := sumScores validatedValues,
                   createdBy := cb, createdFor := member.userId }] = store1 :=
            congrArg Prod.fst h
          exfalso
          apply hdup2
          apply List.any_eq_true.mpr
          refine ⟨{ month := month, year := year, templateId := tid,
                    kpiRef := matchingCourtRef, values := validatedValues,
                    status := "generated", totalScore := sumScores validatedValues,
                    createdBy := cb, createdFor := member.userId }, hsub _ ?_, ?_⟩
          · rw [← h1]
            exact List.mem_append_right _ (List.mem_singleton.mpr rfl)
          · simp only []
            rw [Bool.and_eq_true, Bool.and_eq_true, Bool.and_eq_true, Bool.and_eq_true]
            exact ⟨⟨⟨⟨by simp, by simp⟩, by simp⟩, by simp⟩, hrefv⟩

theorem migrationStep_second (env : MigrationEnv) (template : KpiTemplate)
    (month year : ℕ) (tid cb : String) (store store1 store2 : List KpiEntryDoc)
    (record : CsvKpiData) (o : RecordOutcome)
    (h : migrationStep env template month year tid cb store record = (store1, o))
    (hsub : ∀ e ∈ store1, e ∈ store2) :
    ∃ o2, migrationStep env template month year tid cb store2 record = (store2, o2) ∧
      o2 ≠ .success ∧ (o ≠ .failed → o2 = .skipped) := by
  unfold migrationStep at h ⊢
  cases hcn : record.courtName with
  | none =>
    simp only [hcn] at h ⊢
    exact migrationStepPlain_second env template month year tid cb store store1 store2
      record o h hsub
  | some court =>
    simp only [hcn] at h ⊢
    by_cases hce : (court == "") = true
    · rw [if_pos hce] at h ⊢
      exact migrationStepPlain_second env template month year tid cb store store1 store2
        record o h hsub
    · rw [if_neg hce] at h ⊢
      exact migrationStepCourt_second env template month year tid cb store store1 store2
        record court o h hsub

theorem runMigrationRecords_second (env : MigrationEnv) (template : KpiTemplate)
    (month year : ℕ) (tid cb : String) (csvData : List CsvKpiData) :
    ∀ store store1 outs store2,
      runMigrationRecords env template month year tid cb store csvData = (store1, outs) →
      (∀ e ∈ store1, e ∈ store2) →
      ∃ outs2,
        runMigrationRecords env template month year tid cb store2 csvData =
          (store2, outs2) ∧
        outs2.length = csvData.length ∧
        (∀ o2 ∈ outs2, o2 ≠ .success) ∧
        (countOutcomes outs .failed = 0 → ∀ o2 ∈ outs2, o2 = .skipped) := by
  induction csvData with
  | nil =>
    intro store store1 outs store2 h hsub
    simp only [runMigrationRecords] at h
    rcases (Prod.mk.injEq _ _ _ _).mp h with ⟨-, h2⟩
    refine ⟨[], rfl, rfl, by simp, fun _ o2 ho2 => absurd ho2 (by simp)⟩
  | cons r rs ih =>
    intro store store1 outs store2 h hsub
    simp only [runMigrationRecords] at h
    rcases hstep : migrationStep env template month year tid cb store r with ⟨stA, o⟩
    rw [hstep] at h
    rcases hrun : runMigrationRecords env template month year tid cb stA rs with ⟨stB, outsTail⟩
    rw [hrun] at h
    rcases (Prod.mk.injEq _ _ _ _).mp h with ⟨h1, h2⟩
    have hsubA : ∀ e ∈ stA, e ∈ store2 := by
      intro e he
      apply hsub
      rw [← h1]
      have := runMigrationRecords_mono env template month year tid cb rs stA e he
      rw [hrun] at this
      exact this
    obtain ⟨o2, hs2, ho2ns, ho2sk⟩ :=
      migrationStep_second env template month year tid cb store stA store2 r o hstep hsubA
    have hsubB : ∀ e ∈ stB, e ∈ store2 := by
      intro e he
      apply hsub
      rw [← h1]
      exact he
    obtain ⟨outs2t, hrun2, hlen2, hns2, hsk2⟩ :=
      ih stA stB outsTail store2 hrun hsubB
    refine ⟨o2 :: outs2t, ?_, ?_, ?_, ?_⟩
    · simp only [runMigrationRecords, hs2, hrun2]
    · simp [hlen2]
    · intro x hx
      rcases List.mem_cons.mp hx with rfl | hx2
      · exact ho2ns
      · exact hns2 x hx2
    · intro hfail x hx
      rw [← h2] at hfail
      obtain ⟨honf, htailf⟩ := countOutcomes_cons_failed_zero o outsTail hfail
      rcases List.mem_cons.mp hx with rfl | hx2
      · exact ho2sk honf
      · exact hsk2 htailf x hx2

/-- C5 counterexample: a record whose values fail validation (unknown KPI
item) is counted `failed` by the first run, the store is unchanged, and the
second run — against that very state — fails it again: `skippedEntries` is
0, not `totalRecords` = 1. -/
theorem C5_failed_record_never_skipped :
    createKpiEntryFromCsvData c5Env (some c5Template) [c5Record] 1 2024 "T" "sys" [] =
      .ok ([], { totalRecords := 1, successfulEntries := 0, failedEntries := 1,
                 skippedEntries := 0 }) := by
  with_unfolding_all rfl

/-- C5 amended: a second run over the state a completed first run produced
inserts nothing and succeeds on no record; `skippedEntries = totalRecords`
holds whenever the first run had no failed entries (a record that failed
the first run fails — or is skipped — again, so the unconditional claim is
wrong only for failing records). -/
theorem C5_second_run_skips (env : MigrationEnv) (template : KpiTemplate)
    (csvData : List CsvKpiData) (month year : ℕ) (templateId createdBy : String)
    (store store1 : List KpiEntryDoc) (r1 : MigrationResult)
    (h1 : createKpiEntryFromCsvData env (some template) csvData month year templateId
      createdBy store = .ok (store1, r1)) :
    ∃ r2, createKpiEntryFromCsvData env (some template) csvData month year templateId
        createdBy store1 = .ok (store1, r2) ∧
      r2.successfulEntries = 0 ∧
      r2.totalRecords = r1.totalRecords ∧
      (r1.failedEntries = 0 → r2.skippedEntries = r2.totalRecords) := by
  unfold createKpiEntryFromCsvData at h1 ⊢
  simp only [] at h1 ⊢
  rcases hrun : runMigrationRecords env template month year templateId
      (if createdBy == "" then "system" else createdBy) store csvData with ⟨stB, outs⟩
  rw [hrun] at h1
  simp only [Except.ok.injEq, Prod.mk.injEq] at h1
  obtain ⟨h1s, h1r⟩ := h1
  obtain ⟨outs2, hrun2, hlen2, hns2, hsk2⟩ :=
    runMigrationRecords_second env template month year templateId
      (if createdBy == "" then "system" else createdBy) csvData store stB outs store1
      hrun (by rw [h1s]; exact fun e he => he)
  rw [hrun2]
  refine ⟨_, rfl, ?_, ?_, ?_⟩
  · exact countOutcomes_none outs2 .success hns2
  · rw [← h1r]
  · intro hfail
    have hfail2 : countOutcomes outs .failed = 0 := by
      rw [← h1r] at hfail
      exact hfail
    show countOutcomes outs2 .skipped = csvData.length
    rw [countOutcomes_all_eq outs2 .skipped (hsk2 hfail2)]
    exact hlen2

/-- Witness: C5 amended after a successful first run of one record. -/
theorem C5_second_run_skips_witness :
    ∃ r2, createKpiEntryFromCsvData c4Env (some c4Template) [c5wRecord] 1 2024 "T"
        "sys" [c5wDoc] = .ok ([c5wDoc], r2) ∧
      r2.successfulEntries = 0 ∧
      r2.totalRecords =
        ({ totalRecords := 1, successfulEntries := 1, failedEntries := 0,
           skippedEntries := 0 } : MigrationResult).totalRecords ∧
      (({ totalRecords := 1, successfulEntries := 1, failedEntries := 0,
          skippedEntries := 0 } : MigrationResult).failedEntries = 0 →
        r2.skippedEntries = r2.totalRecords) :=
  C5_second_run_skips c4Env c4Template [c5wRecord] 1 2024 "T" "sys" [] [c5wDoc]
    { totalRecords := 1, successfulEntries := 1, failedEntries := 0, skippedEntries := 0 }
    (by with_unfolding_all rfl)

set_option maxRecDepth 1000000 in
/-- C7: the data loop of `parseCsvData` starts at line index 1 — the
sub-header row — not at index 2: parsing a CSV that consists of ONLY the
two header lines (no data rows at all) already yields a record, extracted
from the sub-header line. -/
theorem C7_subheader_line_yields_record :
    parseCsvData c7Csv "revenue-department" "tehsildar" = .ok [c7Record] := by
  with_unfolding_all rfl

theorem mem_insertByDesc {α : Type} (key : α → ℚ) (x y : α) (l : List α)
    (h : y ∈ insertByDesc key x l) : y = x ∨ y ∈ l := by
  induction l with
  | nil => simpa [insertByDesc] using h
  | cons z zs ih =>
    unfold insertByDesc at h
    by_cases hc : key z < key x
    · rw [if_pos hc] at h
      rcases List.mem_cons.mp h with h1 | h2
      · exact Or.inl h1
      · exact Or.inr h2
    · rw [if_neg hc] at h
      rcases List.mem_cons.mp h with h1 | h2
      · exact Or.inr (h1 ▸ List.mem_cons_self z zs)
      · rcases ih h2 with h3 | h4
        · exact Or.inl h3
        · exact Or.inr (List.mem_cons_of_mem _ h4)

theorem mem_sortByDesc_fold {α : Type} (key : α → ℚ) (l : List α) :
    ∀ acc y, y ∈ l.foldl (fun acc x => insertByDesc key x acc) acc →
      y ∈ acc ∨ y ∈ l := by
  induction l with
  | nil => intro acc y h; exact Or.inl h
  | cons x xs ih =>
    intro acc y h
    rcases ih _ y h with h1 | h2
    · rcases mem_insertByDesc key x y acc h1 with h3 | h4
      · exact Or.inr (h3 ▸ List.mem_cons_self x xs)
      · exact Or.inl h4
    · exact Or.inr (List.mem_cons_of_mem _ h2)

theorem sortByDesc_mem {α : Type} (key : α → ℚ) (l : List α) (y : α)
    (h : y ∈ sortByDesc key l) : y ∈ l := by
  rcases mem_sortByDesc_fold key l [] y h with h1 | h2
  · cases h1
  · exact h2

theorem pairwise_insertByDesc {α : Type} (key : α → ℚ) (x : α) (l : List α)
    (h : l.Pairwise (fun a b => key b ≤ key a)) :
    (insertByDesc key x l).Pairwise (fun a b => key b ≤ key a) := by
  induction l with
  | nil => simp [insertByDesc]
  | cons z zs ih =>
    rcases List.pairwise_cons.mp h with ⟨hz, hzs⟩
    unfold insertByDesc
    by_cases hc : key z < key x
    · rw [if_pos hc]
      refine List.pairwise_cons.mpr ⟨?_, h⟩
      intro b hb
      rcases List.mem_cons.mp hb with rfl | hb2
      · exact le_of_lt hc
      · exact le_trans (hz b hb2) (le_of_lt hc)
    · rw [if_neg hc]
      refine List.pairwise_cons.mpr ⟨?_, ih hzs⟩
      intro b hb
      rcases mem_insertByDesc key x b zs hb with rfl | hb2
      · exact le_of_not_lt hc
      · exact hz b hb2

theorem sortByDesc_pairwise {α : Type} (key : α → ℚ) (l : List α) :
    (sortByDesc key l).Pairwise (fun a b => key b ≤ key a) := by
  have main : ∀ acc, acc.Pairwise (fun a b => key b ≤ key a) →
      (l.foldl (fun acc x => insertByDesc key x acc) acc).Pairwise
        (fun a b => key b ≤ key a) := by
    induction l with
    | nil => intro acc h; exact h
    | cons x xs ih => intro acc h; exact ih _ (pairwise_insertByDesc key x acc h)
  exact main [] (List.Pairwise.nil)

theorem addRanks_length (b : ℕ) (l : List EmployeeRanking) :
    (addRanks b l).length = l.length := by
  induction l generalizing b with
  | nil => rfl
  | cons x xs ih => simp [addRanks, ih]

theorem addRanks_rank (b : ℕ) (l : List EmployeeRanking) (i : ℕ)
    (h : i < (addRanks b l).length) :
    ((addRanks b l).get ⟨i, h⟩).rank = b + i + 1 := by
  induction l generalizing b i with
  | nil => exact absurd h (by simp [addRanks])
  | cons x xs ih =>
    cases i with
    | zero => rfl
    | succ j =>
      have h2 : j < (addRanks (b + 1) xs).length := by
        have h3 := h
        simp only [addRanks, List.length_cons] at h3
        omega
      have h3 := ih (b + 1) j h2
      show ((addRanks (b + 1) xs).get ⟨j, h2⟩).rank = b + (j + 1) + 1
      rw [h3]
      omega

theorem mem_addRanks (b : ℕ) (l : List EmployeeRanking) (y : EmployeeRanking)
    (hy : y ∈ addRanks b l) :
    ∃ z ∈ l, y.percentageScore = z.percentageScore ∧ y.totalScore = z.totalScore ∧
      y.maxPossibleScore = z.maxPossibleScore := by
  induction l generalizing b with
  | nil => cases hy
  | cons x xs ih =>
    rcases List.mem_cons.mp hy with rfl | hy2
    · exact ⟨x, List.mem_cons_self x xs, rfl, rfl, rfl⟩
    · obtain ⟨z, hz, hp⟩ := ih (b + 1) hy2
      exact ⟨z, List.mem_cons_of_mem _ hz, hp⟩

theorem addRanks_sorted (b : ℕ) (l : List EmployeeRanking)
    (h : l.Pairwise (fun a c => c.percentageScore ≤ a.percentageScore)) :
    (addRanks b l).Pairwise (fun a c => c.percentageScore ≤ a.percentageScore) := by
  induction l generalizing b with
  | nil => constructor
  | cons x xs ih =>
    rcases List.pairwise_cons.mp h with ⟨hx, hxs⟩
    refine List.pairwise_cons.mpr ⟨?_, ih (b + 1) hxs⟩
    intro y hy
    obtain ⟨z, hz, hp, -, -⟩ := mem_addRanks (b + 1) xs y hy
    show y.percentageScore ≤ x.percentageScore
    rw [hp]
    exact hx z hz

/-- C9: the full ranked list is sorted descending by percentage, ranks are
the 1-based positions, the page is the offset/limit slice of the sorted
full set, every ranking's percentage is `total/maxPossible*100` (0 when
`maxPossible` is 0), and for the §8 example (percentages 90, 70, 50 with
`limit = 2, page = 1`) the page holds ranks 1 and 2 with
`hasNextPage = true`. -/
theorem C9_employee_rankings (entries : List StatEntry)
    (templates : List KpiTemplate) (filters : StatisticsFilters) :
    ((rankedList entries templates filters).Pairwise
      (fun a c => c.percentageScore ≤ a.percentageScore)) ∧
    (∀ i (h : i < (rankedList entries templates filters).length),
      ((rankedList entries templates filters).get ⟨i, h⟩).rank = i + 1) ∧
    ((getEmployeeRankings entries templates filters).rankings =
      ((rankedList entries templates filters).drop
        ((filters.page - 1) * filters.limit)).take filters.limit) ∧
    (∀ r ∈ rankedList entries templates filters,
      r.percentageScore =
        if r.maxPossibleScore > 0 then r.totalScore / r.maxPossibleScore * 100
        else 0) ∧
    ((getEmployeeRankings c9Entries c9Templates c9Filters).rankings.map
        (fun r => (r.createdFor, r.rank, r.percentageScore)) =
      [("E1", 1, (90 : ℚ)), ("E2", 2, (70 : ℚ))]) ∧
    (getEmployeeRankings c9Entries c9Templates c9Filters).hasNextPage = true := by
  refine ⟨?_, ?_, rfl, ?_, ?_, ?_⟩
  · exact addRanks_sorted 0 _ (sortByDesc_pairwise _ _)
  · intro i h
    unfold rankedList at h ⊢
    rw [addRanks_rank 0 _ i h]
    omega
  · intro r hr
    unfold rankedList at hr
    obtain ⟨z, hz, hp, ht, hm⟩ := mem_addRanks 0 _ r hr
    have hz2 := sortByDesc_mem _ _ z hz
    obtain ⟨p, hpmem, hpz⟩ := List.mem_map.mp hz2
    rw [hp, ht, hm, ← hpz]
  · with_unfolding_all decide
  · with_unfolding_all decide

theorem nhBetter_eq (st : NhBest) (score : ℕ) :
    nhBetter st score = decide (nhScore st < score) := by
  cases st with
  | none => rfl
  | some t =>
    rcases t with ⟨k, v, s⟩
    show (decide (score > 0) && decide (score > s)) = decide (s < score)
    by_cases h : s < score
    · have h0 : 0 < score := Nat.lt_of_le_of_lt (Nat.zero_le s) h
      simp [h, h0]
    · simp [h]

theorem nhStep_spec (nh key : String) (variations : List String) :
    ∀ st : NhBest,
      (keyBestScore nh variations ≤ nhScore st →
        nhStep nh st (key, variations) = st) ∧
      (nhScore st < keyBestScore nh variations →
        ∃ v, nhStep nh st (key, variations) =
          some (key, v, keyBestScore nh variations)) := by
  induction variations with
  | nil =>
    intro st
    exact ⟨fun _ => rfl, fun h => absurd h (by simp [keyBestScore])⟩
  | cons v vs ih =>
    intro st
    have hkb : keyBestScore nh (v :: vs) =
        max (variationScore nh v) (keyBestScore nh vs) := rfl
    by_cases hcmp : nhScore st < variationScore nh v
    · have hb : nhBetter st (variationScore nh v) = true := by
        rw [nhBetter_eq]
        exact decide_eq_true hcmp
      have hst : nhStep nh st (key, v :: vs) =
          nhStep nh (some (key, v, variationScore nh v)) (key, vs) := by
        show nhStep nh (if nhBetter st (variationScore nh v) then
            some (key, v, variationScore nh v) else st) (key, vs) = _
        rw [hb]
        rfl
      obtain ⟨ih1, ih2⟩ := ih (some (key, v, variationScore nh v))
      constructor
      · intro hle
        rw [hkb] at hle
        exact absurd (Nat.le_trans (Nat.le_max_left _ _) hle) (Nat.not_le_of_lt hcmp)
      · intro h2
        by_cases hks : keyBestScore nh vs ≤ variationScore nh v
        · have hmax : keyBestScore nh (v :: vs) = variationScore nh v := by
            rw [hkb]; omega
          refine ⟨v, ?_⟩
          rw [hst, ih1 ?_, hmax]
          show keyBestScore nh vs ≤ variationScore nh v
          exact hks
        · have hlt : variationScore nh v < keyBestScore nh vs := by omega
          have hmax : keyBestScore nh (v :: vs) = keyBestScore nh vs := by
            rw [hkb]; omega
          obtain ⟨w, hw⟩ := ih2 hlt
          refine ⟨w, ?_⟩
          rw [hst, hw, hmax]
    · have hb : nhBetter st (variationScore nh v) = false := by
        rw [nhBetter_eq]
        exact decide_eq_false hcmp
      have hst : nhStep nh st (key, v :: vs) = nhStep nh st (key, vs) := by
        show nhStep nh (if nhBetter st (variationScore nh v) then
            some (key, v, variationScore nh v) else st) (key, vs) = _
        rw [hb]
        rfl
      obtain ⟨ih1, ih2⟩ := ih st
      constructor
      · intro hle
        rw [hkb] at hle
        rw [hst]
        exact ih1 (Nat.le_trans (Nat.le_max_right _ _) hle)
      · intro h2
        rw [hkb] at h2
        have hlt2 : nhScore st < keyBestScore nh vs := by omega
        have hmax : keyBestScore nh (v :: vs) = keyBestScore nh vs := by
          rw [hkb]; omega
        obtain ⟨w, hw⟩ := ih2 hlt2
        refine ⟨w, ?_⟩
        rw [hst, hw, hmax]

theorem nhFold_spec (nh : String) (tbl : List (String × List String)) :
    ∀ st : NhBest,
      (tableBestScore nh tbl ≤ nhScore st → tbl.foldl (nhStep nh) st = st) ∧
      (nhScore st < tableBestScore nh tbl →
        ∃ p v,
          tbl.find? (fun q => keyBestScore nh q.2 == tableBestScore nh tbl) =
            some p ∧
          tbl.foldl (nhStep nh) st = some (p.1, v, tableBestScore nh tbl)) := by
  induction tbl with
  | nil =>
    intro st
    exact ⟨fun _ => rfl, fun h => absurd h (by simp [tableBestScore])⟩
  | cons p rest ih =>
    intro st
    have htb : tableBestScore nh (p :: rest) =
        max (keyBestScore nh p.2) (tableBestScore nh rest) := rfl
    have hunfold : (p :: rest).foldl (nhStep nh) st =
        rest.foldl (nhStep nh) (nhStep nh st p) := rfl
    obtain ⟨s1, s2⟩ := nhStep_spec nh p.1 p.2 st
    constructor
    · intro hle
      rw [htb] at hle
      have hkp : keyBestScore nh p.2 ≤ nhScore st := by omega
      have hr : tableBestScore nh rest ≤ nhScore st := by omega
      rw [hunfold]
      have hstep : nhStep nh st p = st := s1 hkp
      rw [hstep]
      exact (ih st).1 hr
    · intro hlt
      by_cases hcase : tableBestScore nh rest ≤ keyBestScore nh p.2
      · have hmax : tableBestScore nh (p :: rest) = keyBestScore nh p.2 := by
          rw [htb]; omega
        have hb0 : nhScore st < keyBestScore nh p.2 := by
          rw [hmax] at hlt; exact hlt
        obtain ⟨v, hv⟩ := s2 hb0
        have hfp : (fun q : String × List String =>
            keyBestScore nh q.2 == tableBestScore nh (p :: rest)) p = true := by
          simp only []
          rw [hmax]
          exact beq_self_eq_true _
        refine ⟨p, v, @List.find?_cons_of_pos (String × List String)
          (fun q2 => keyBestScore nh q2.2 == tableBestScore nh (p :: rest)) p
          rest hfp, ?_⟩
        rw [hunfold]
        have hv2 : nhStep nh st p = some (p.1, v, keyBestScore nh p.2) := hv
        rw [hv2]
        have hrest : rest.foldl (nhStep nh)
            (some (p.1, v, keyBestScore nh p.2)) =
            some (p.1, v, keyBestScore nh p.2) :=
          (ih _).1 hcase
        rw [hrest, hmax]
      · have hlt2 : keyBestScore nh p.2 < tableBestScore nh rest := by omega
        have hmax : tableBestScore nh (p :: rest) = tableBestScore nh rest := by
          rw [htb]; omega
        have hfp : ¬((fun q : String × List String =>
            keyBestScore nh q.2 == tableBestScore nh (p :: rest)) p = true) := by
          simp only []
          rw [hmax]
          intro hcon
          have heq := eq_of_beq hcon
          omega
        by_cases hup : nhScore st < keyBestScore nh p.2
        · obtain ⟨v, hv⟩ := s2 hup
          obtain ⟨q, w, hfq, hfold⟩ := (ih (some (p.1, v, keyBestScore nh p.2))).2 hlt2
          refine ⟨q, w, ?_, ?_⟩
          · rw [@List.find?_cons_of_neg (String × List String)
              (fun q2 => keyBestScore nh q2.2 == tableBestScore nh (p :: rest)) p
              rest hfp, hmax]
            exact hfq
          · rw [hunfold]
            have hv2 : nhStep nh st p = some (p.1, v, keyBestScore nh p.2) := hv
            rw [hv2, hfold, hmax]
        · have hle : keyBestScore nh p.2 ≤ nhScore st := by omega
          have hst : nhStep nh st p = st := s1 hle
          have hb0 : nhScore st < tableBestScore nh rest := by
            rw [hmax] at hlt; exact hlt
          obtain ⟨q, w, hfq, hfold⟩ := (ih st).2 hb0
          refine ⟨q, w, ?_, ?_⟩
          · rw [@List.find?_cons_of_neg (String × List String)
              (fun q2 => keyBestScore nh q2.2 == tableBestScore nh (p :: rest)) p
              rest hfp, hmax]
            exact hfq
          · rw [hunfold, hst, hfold, hmax]

theorem keyBestScore_zero_iff (nh : String) (variations : List String) :
    keyBestScore nh variations = 0 ↔ ∀ v ∈ variations, variationScore nh v = 0 := by
  induction variations with
  | nil => simp [keyBestScore]
  | cons v vs ih =>
    rw [show keyBestScore nh (v :: vs) =
      max (variationScore nh v) (keyBestScore nh vs) from rfl]
    constructor
    · intro h
      intro w hw
      rcases List.mem_cons.mp hw with rfl | hw2
      · omega
      · exact (ih.mp (by omega)) w hw2
    · intro h
      have h1 := h v (List.mem_cons_self v vs)
      have h2 : keyBestScore nh vs = 0 :=
        ih.mpr (fun w hw => h w (List.mem_cons_of_mem _ hw))
      omega

theorem tableBestScore_zero_iff (nh : String) (tbl : List (String × List String)) :
    tableBestScore nh tbl = 0 ↔
      ∀ p ∈ tbl, ∀ v ∈ p.2, variationScore nh v = 0 := by
  induction tbl with
  | nil => simp [tableBestScore]
  | cons p rest ih =>
    rw [show tableBestScore nh (p :: rest) =
      max (keyBestScore nh p.2) (tableBestScore nh rest) from rfl]
    constructor
    · intro h
      intro q hq
      rcases List.mem_cons.mp hq with rfl | hq2
      · exact (keyBestScore_zero_iff nh q.2).mp (by omega)
      · exact (ih.mp (by omega)) q hq2
    · intro h
      have h1 : keyBestScore nh p.2 = 0 :=
        (keyBestScore_zero_iff nh p.2).mpr (h p (List.mem_cons_self p rest))
      have h2 : tableBestScore nh rest = 0 :=
        ih.mpr (fun q hq => h q (List.mem_cons_of_mem _ hq))
      omega

set_option maxRecDepth 1000000 in
/-- C10: the header normalizer returns the canonical key of the
best-scoring variant (exact case-insensitive match 100, substring
containment either way 50, else 0), no match exactly when every variant
scores 0, ties between canonical keys broken by first table order; the §8
examples resolve `Officer Name` (substring) and `अधिकारी` (exact) to
`पीठासीन अधिकारी`. -/
theorem C10_normalize_header (header : String) (tbl : List (String × List String)) :
    normalizeHeader header tbl = specNormalizeHeader header tbl ∧
    (normalizeHeader header tbl = none ↔
      ∀ p ∈ tbl, ∀ v ∈ p.2, variationScore (jsLower (jsTrim header)) v = 0) ∧
    normalizeHeader "Officer Name" headerNormalizations = some "पीठासीन अधिकारी" ∧
    normalizeHeader "अधिकारी" headerNormalizations = some "पीठासीन अधिकारी" := by
  have hmain : normalizeHeader header tbl = specNormalizeHeader header tbl := by
    unfold normalizeHeader specNormalizeHeader
    simp only []
    by_cases h0 : tableBestScore (jsLower (jsTrim header)) tbl = 0
    · rw [if_pos h0]
      have hfold := (nhFold_spec (jsLower (jsTrim header)) tbl none).1
        (by rw [h0]; exact Nat.le_refl 0)
      rw [hfold]
    · rw [if_neg h0]
      obtain ⟨p, v, hfind, hfold⟩ :=
        (nhFold_spec (jsLower (jsTrim header)) tbl none).2 (Nat.pos_of_ne_zero h0)
      rw [hfold, hfind]
      rfl
  have hnone : normalizeHeader header tbl = none ↔
      tableBestScore (jsLower (jsTrim header)) tbl = 0 := by
    rw [hmain]
    unfold specNormalizeHeader
    simp only []
    by_cases h0 : tableBestScore (jsLower (jsTrim header)) tbl = 0
    · rw [if_pos h0]
      simp [h0]
    · rw [if_neg h0]
      constructor
      · intro hmap
        obtain ⟨p, v, hfind, -⟩ :=
          (nhFold_spec (jsLower (jsTrim header)) tbl none).2 (Nat.pos_of_ne_zero h0)
        rw [hfind] at hmap
        exact absurd hmap (by simp)
      · intro h
        exact absurd h h0
  refine ⟨hmain, ?_, ?_, ?_⟩
  · rw [hnone]
    exact tableBestScore_zero_iff _ tbl
  · with_unfolding_all decide
  · with_unfolding_all decide

end Kpi
